import Mathlib

set_option linter.unusedVariables false

/-!
Verification of the Lol.Poten potential-analysis code.

The analyzed program is TypeScript running on JavaScript number semantics.
We embed JavaScript numbers shallowly as the type JSNum below: a JS number is
either NaN, +Infinity, -Infinity, or a finite value (modelled as a real
number; the spec and all claims treat the arithmetic as exact real
arithmetic, and no claim depends on binary floating-point rounding).
Arithmetic, comparisons, Math.min/Math.max/Math.round/Math.sqrt and the
falsy-coalescing idiom x || 0 are given their JavaScript meaning.
Inputs parsed from JSON (match data, rank data) are always finite, so raw
input fields are plain reals; NaN and the infinities arise only from the
divisions performed by the analyzer itself.
-/

inductive JSNum where
  | nan : JSNum
  | posInf : JSNum
  | negInf : JSNum
  | fin : ℝ → JSNum

namespace JSNum

/-- JavaScript addition. -/
noncomputable def add : JSNum → JSNum → JSNum
  | nan, _ => nan
  | _, nan => nan
  | posInf, negInf => nan
  | negInf, posInf => nan
  | posInf, _ => posInf
  | _, posInf => posInf
  | negInf, _ => negInf
  | _, negInf => negInf
  | fin a, fin b => fin (a + b)

/-- JavaScript subtraction. -/
noncomputable def sub : JSNum → JSNum → JSNum
  | nan, _ => nan
  | _, nan => nan
  | posInf, posInf => nan
  | negInf, negInf => nan
  | posInf, _ => posInf
  | negInf, _ => negInf
  | _, posInf => negInf
  | _, negInf => posInf
  | fin a, fin b => fin (a - b)

/-- JavaScript multiplication. -/
noncomputable def mul : JSNum → JSNum → JSNum
  | nan, _ => nan
  | _, nan => nan
  | posInf, posInf => posInf
  | posInf, negInf => negInf
  | negInf, posInf => negInf
  | negInf, negInf => posInf
  | posInf, fin b => if b = 0 then nan else if 0 < b then posInf else negInf
  | fin a, posInf => if a = 0 then nan else if 0 < a then posInf else negInf
  | negInf, fin b => if b = 0 then nan else if 0 < b then negInf else posInf
  | fin a, negInf => if a = 0 then nan else if 0 < a then negInf else posInf
  | fin a, fin b => fin (a * b)

/-- JavaScript division.  Signed zeros are not modelled: a zero denominator
is treated as +0, which is the only case arising in the analyzed code
(denominators are game durations, list lengths and stat counts). -/
noncomputable def div : JSNum → JSNum → JSNum
  | nan, _ => nan
  | _, nan => nan
  | posInf, posInf => nan
  | posInf, negInf => nan
  | negInf, posInf => nan
  | negInf, negInf => nan
  | posInf, fin b => if 0 ≤ b then posInf else negInf
  | negInf, fin b => if 0 ≤ b then negInf else posInf
  | fin _, posInf => fin 0
  | fin _, negInf => fin 0
  | fin a, fin b =>
      if b = 0 then (if a = 0 then nan else if 0 < a then posInf else negInf)
      else fin (a / b)

/-- JavaScript Math.sqrt. -/
noncomputable def sqrtJS : JSNum → JSNum
  | nan => nan
  | posInf => posInf
  | negInf => nan
  | fin a => if a < 0 then nan else fin (Real.sqrt a)

/-- JavaScript Math.min (NaN if either argument is NaN). -/
noncomputable def minJS : JSNum → JSNum → JSNum
  | nan, _ => nan
  | _, nan => nan
  | negInf, _ => negInf
  | _, negInf => negInf
  | posInf, b => b
  | a, posInf => a
  | fin a, fin b => fin (min a b)

/-- JavaScript Math.max (NaN if either argument is NaN). -/
noncomputable def maxJS : JSNum → JSNum → JSNum
  | nan, _ => nan
  | _, nan => nan
  | posInf, _ => posInf
  | _, posInf => posInf
  | negInf, b => b
  | a, negInf => a
  | fin a, fin b => fin (max a b)

/-- JavaScript Math.round: round half towards positive infinity. -/
noncomputable def roundJS : JSNum → JSNum
  | nan => nan
  | posInf => posInf
  | negInf => negInf
  | fin a => fin (⌊a + 1/2⌋ : ℤ)

/-- JavaScript less-than comparison: false whenever either side is NaN. -/
noncomputable def ltb : JSNum → JSNum → Bool
  | nan, _ => false
  | _, nan => false
  | negInf, negInf => false
  | negInf, _ => true
  | _, posInf => true
  | posInf, _ => false
  | _, negInf => false
  | fin a, fin b => decide (a < b)

/-- JavaScript less-or-equal comparison: false whenever either side is NaN. -/
noncomputable def leb : JSNum → JSNum → Bool
  | nan, _ => false
  | _, nan => false
  | negInf, _ => true
  | _, posInf => true
  | posInf, _ => false
  | _, negInf => false
  | fin a, fin b => decide (a ≤ b)

/-- JavaScript greater-than. -/
noncomputable def gtb (x y : JSNum) : Bool := ltb y x

/-- JavaScript greater-or-equal. -/
noncomputable def geb (x y : JSNum) : Bool := leb y x

/-- The idiom `x || 0` as applied to a JS number: NaN (and 0 itself) are
falsy and replaced by 0, everything else passes through. -/
noncomputable def orZero : JSNum → JSNum
  | nan => fin 0
  | x => x

end JSNum

/-- The accumulation `list.reduce((sum, x) => sum + f(x), 0)` on JS numbers. -/
noncomputable def jsSum {α : Type} (f : α → JSNum) (l : List α) : JSNum :=
  l.foldl (fun acc x => acc.add (f x)) (.fin 0)


/-!
Data model.  The TypeScript interfaces (ParticipantData, MatchData,
RankData, PotentialAnalysis) are imported by the analyzer from a types
module; their fields are reproduced here exactly as the analyzer reads
them.  Raw numeric stats are finite JSON numbers, hence plain reals.
-/

structure ParticipantData where
  puuid : String
  win : Bool
  kills : ℝ
  deaths : ℝ
  assists : ℝ
  totalMinionsKilled : ℝ
  neutralMinionsKilled : ℝ
  visionScore : ℝ
  totalDamageDealtToChampions : ℝ
  goldEarned : ℝ
  wardsPlaced : ℝ
  wardsKilled : ℝ
  championName : String
  teamPosition : String
  dragonKills : ℝ
  baronKills : ℝ
  turretKills : ℝ
  damageDealtToObjectives : ℝ
  totalDamageTaken : ℝ
  totalHeal : ℝ
  timeCCingOthers : ℝ
  summonerLevel : ℝ

structure MatchInfo where
  gameDuration : ℝ
  participants : List ParticipantData

structure MatchData where
  info : MatchInfo

structure RankData where
  queueType : String
  tier : String
  rank : String
  leaguePoints : ℝ
  wins : ℝ
  losses : ℝ

/-- The rankData argument of analyzePotential has TypeScript type
RankData | RankData[] | null. -/
inductive RankDataInput where
  | null : RankDataInput
  | single : RankData → RankDataInput
  | array : List RankData → RankDataInput

inductive Trend where
  | ascending : Trend
  | stable : Trend
  | descending : Trend
deriving DecidableEq

/-- The per-match performance object built inside calculatePerformanceMetrics
(potentialAnalyzer.ts lines 184 to 212). -/
structure Performance where
  win : Bool
  kills : ℝ
  deaths : ℝ
  assists : ℝ
  kda : JSNum
  cs : ℝ
  csPerMinute : JSNum
  visionScore : ℝ
  visionScorePerMinute : JSNum
  damageDealt : ℝ
  damagePerMinute : JSNum
  goldEarned : ℝ
  goldPerMinute : JSNum
  wardsPlaced : ℝ
  wardsKilled : ℝ
  championName : String
  teamPosition : String
  gameDuration : ℝ
  dragonKills : ℝ
  baronKills : ℝ
  turretKills : ℝ
  damageToObjectives : ℝ
  damageTaken : ℝ
  healingDone : ℝ
  ccScore : ℝ

/-- The metrics object returned by calculatePerformanceMetrics. -/
structure PerformanceMetrics where
  recentWinRate : JSNum
  avgKDA : JSNum
  avgKills : JSNum
  avgDeaths : JSNum
  avgAssists : JSNum
  avgCSPerMinute : JSNum
  avgGoldPerMinute : JSNum
  avgVisionScorePerMinute : JSNum
  avgWardsPlaced : JSNum
  avgWardsKilled : JSNum
  avgDamagePerMinute : JSNum
  avgDamageTaken : JSNum
  objectiveParticipation : JSNum
  consistency : JSNum
  gameImpact : JSNum
  performances : List Performance

structure ChampionPoolEntry where
  name : String
  games : ℕ
  winRate : JSNum
  avgKDA : JSNum

structure PositionEntry where
  position : String
  games : ℕ
  winRate : JSNum

structure PlayStyleAnalysis where
  mostPlayedChampion : Option ChampionPoolEntry
  mostPlayedPosition : Option PositionEntry
  championPool : List ChampionPoolEntry
  positionFlexibility : List PositionEntry
  versatility : JSNum
  specialization : JSNum

structure PotentialAnalysis where
  summonerName : String
  rank : String
  tier : String
  lp : ℝ
  winRate : JSNum
  recentGames : ℕ
  potentialScore : JSNum
  potentialText : String
  strengths : List String
  improvements : List String
  trend : Trend

/-- getDefaultMetrics (potentialAnalyzer.ts lines 339 to 358). -/
noncomputable def getDefaultMetrics : PerformanceMetrics where
  recentWinRate := .fin 50
  avgKDA := .fin 1.0
  avgKills := .fin 5
  avgDeaths := .fin 6
  avgAssists := .fin 8
  avgCSPerMinute := .fin 5
  avgGoldPerMinute := .fin 300
  avgVisionScorePerMinute := .fin 1
  avgWardsPlaced := .fin 10
  avgWardsKilled := .fin 2
  avgDamagePerMinute := .fin 400
  avgDamageTaken := .fin 15000
  objectiveParticipation := .fin 1
  consistency := .fin 50
  gameImpact := .fin 50
  performances := []

/-- getDefaultPlayStyle (potentialAnalyzer.ts lines 360 to 369). -/
noncomputable def getDefaultPlayStyle : PlayStyleAnalysis where
  mostPlayedChampion := none
  mostPlayedPosition := none
  championPool := []
  positionFlexibility := []
  versatility := .fin 30
  specialization := .fin 0

/-- The per-match performance record construction (the body of the map in
calculatePerformanceMetrics, lines 178 to 213). -/
noncomputable def mkPerformance (gameDuration : ℝ) (p : ParticipantData) : Performance :=
  let gameDurationMinutes : ℝ := gameDuration / 60
  { win := p.win
    kills := p.kills
    deaths := p.deaths
    assists := p.assists
    kda := .fin ((p.kills + p.assists) / max p.deaths 1)
    cs := p.totalMinionsKilled + p.neutralMinionsKilled
    csPerMinute := (JSNum.fin (p.totalMinionsKilled + p.neutralMinionsKilled)).div (.fin gameDurationMinutes)
    visionScore := p.visionScore
    visionScorePerMinute := (JSNum.fin p.visionScore).div (.fin gameDurationMinutes)
    damageDealt := p.totalDamageDealtToChampions
    damagePerMinute := (JSNum.fin p.totalDamageDealtToChampions).div (.fin gameDurationMinutes)
    goldEarned := p.goldEarned
    goldPerMinute := (JSNum.fin p.goldEarned).div (.fin gameDurationMinutes)
    wardsPlaced := p.wardsPlaced
    wardsKilled := p.wardsKilled
    championName := p.championName
    teamPosition := p.teamPosition
    gameDuration := gameDuration
    dragonKills := p.dragonKills
    baronKills := p.baronKills
    turretKills := p.turretKills
    damageToObjectives := p.damageDealtToObjectives
    damageTaken := p.totalDamageTaken
    healingDone := p.totalHeal
    ccScore := p.timeCCingOthers }

/-- calculateMetricConsistency (lines 386 to 393).  Math.pow(x, 2) is x*x on
the values that occur here. -/
noncomputable def calculateMetricConsistency (values : List JSNum) : JSNum :=
  let mean := (jsSum id values).div (.fin values.length)
  let variance := (jsSum (fun val => ((val.sub mean)).mul (val.sub mean)) values).div (.fin values.length)
  let standardDeviation := variance.sqrtJS
  (JSNum.fin 0).maxJS ((JSNum.fin 100).minJS ((JSNum.fin 100).sub (standardDeviation.mul (.fin 20))))

/-- calculateAdvancedConsistency (lines 372 to 384). -/
noncomputable def calculateAdvancedConsistency (performances : List Performance) : JSNum :=
  if performances.length < 3 then .fin 50
  else
    let kdas := performances.map (fun p => p.kda.orZero)
    let damages := performances.map (fun p => p.damagePerMinute.orZero)
    let visions := performances.map (fun p => p.visionScorePerMinute.orZero)
    let kdaConsistency := calculateMetricConsistency kdas
    let damageConsistency := calculateMetricConsistency damages
    let visionConsistency := calculateMetricConsistency visions
    ((kdaConsistency.add damageConsistency).add visionConsistency).div (.fin 3)

/-- calculateGameImpact (lines 396 to 407).  The raw dragon and baron kill
counts are finite, so the `|| 0` guard on them is the identity. -/
noncomputable def calculateGameImpact (performances : List Performance) : JSNum :=
  if performances.length = 0 then .fin 50
  else
    let n : JSNum := .fin performances.length
    let avgKDA := (jsSum (fun p => p.kda.orZero) performances).div n
    let avgDamage := (jsSum (fun p => p.damagePerMinute.orZero) performances).div n
    let avgVision := (jsSum (fun p => p.visionScorePerMinute.orZero) performances).div n
    let avgObjectives := (jsSum (fun p => JSNum.fin (p.dragonKills + p.baronKills)) performances).div n
    let impactScore := (((avgKDA.mul (.fin 25)).add (avgDamage.div (.fin 20))).add
        (avgVision.mul (.fin 30))).add (avgObjectives.mul (.fin 20))
    (JSNum.fin 0).maxJS ((JSNum.fin 100).minJS impactScore)

/-- calculatePerformanceMetrics (lines 177 to 255).  The nulls produced for
unmatched participants and removed by filter(Boolean) are modelled with
Option and filterMap.  The `|| 0` guards are the identity on the raw finite
stats (kills, wards, damage taken, objective counts) and are kept, as
orZero, on the computed per-minute values, which can be NaN.
matchedPerformances is the local performances list of the source function,
named so theorems can refer to it. -/
noncomputable def matchedPerformances (matchList : List MatchData) (summonerPuuid : String) :
    List Performance :=
  (matchList.map (fun mt =>
      (mt.info.participants.find? (fun p => p.puuid = summonerPuuid)).map
        (mkPerformance mt.info.gameDuration))).filterMap id

noncomputable def calculatePerformanceMetrics (matchList : List MatchData) (summonerPuuid : String) :
    PerformanceMetrics :=
  let performances := matchedPerformances matchList summonerPuuid
  if performances.length = 0 then getDefaultMetrics
  else
    let wins := (performances.filter (fun p => p.win)).length
    let totalGames := performances.length
    let n : JSNum := .fin totalGames
    { recentWinRate := ((JSNum.fin wins).div n).mul (.fin 100)
      avgKDA := (jsSum (fun p => p.kda.orZero) performances).div n
      avgKills := (jsSum (fun p => JSNum.fin p.kills) performances).div n
      avgDeaths := (jsSum (fun p => JSNum.fin p.deaths) performances).div n
      avgAssists := (jsSum (fun p => JSNum.fin p.assists) performances).div n
      avgCSPerMinute := (jsSum (fun p => p.csPerMinute.orZero) performances).div n
      avgGoldPerMinute := (jsSum (fun p => p.goldPerMinute.orZero) performances).div n
      avgVisionScorePerMinute := (jsSum (fun p => p.visionScorePerMinute.orZero) performances).div n
      avgWardsPlaced := (jsSum (fun p => JSNum.fin p.wardsPlaced) performances).div n
      avgWardsKilled := (jsSum (fun p => JSNum.fin p.wardsKilled) performances).div n
      avgDamagePerMinute := (jsSum (fun p => p.damagePerMinute.orZero) performances).div n
      avgDamageTaken := (jsSum (fun p => JSNum.fin p.damageTaken) performances).div n
      objectiveParticipation :=
        (jsSum (fun p => JSNum.fin (p.dragonKills + p.baronKills + p.turretKills)) performances).div n
      consistency := calculateAdvancedConsistency performances
      gameImpact := calculateGameImpact performances
      performances := performances }

structure ChampAcc where
  games : ℕ
  wins : ℕ
  kda : ℝ
  damage : ℝ

structure PosAcc where
  games : ℕ
  wins : ℕ

/-- Insertion-ordered map update: the JS Map idiom (set an initial entry if
the key is absent, then mutate the stored entry). -/
def updateAssoc {α : Type} : List (String × α) → String → α → (α → α) → List (String × α)
  | [], k, init, f => [(k, f init)]
  | (k', v) :: rest, k, init, f =>
      if k' = k then (k', f v) :: rest else (k', v) :: updateAssoc rest k init f

/-- analyzePlayStyle (potentialAnalyzer.ts lines 258 to 336).  JS Maps keep
insertion order (assoc lists here); Array.sort is stable with the comparator
(a, b) => b.games - a.games, matched by a stable merge sort whose relation
keeps a before b when b.games is at most a.games. -/
noncomputable def analyzePlayStyle (matchList : List MatchData) (summonerPuuid : String) :
    PlayStyleAnalysis :=
  let performances := (matchList.map (fun mt =>
      mt.info.participants.find? (fun p => p.puuid = summonerPuuid))).filterMap id
  if performances.length = 0 then getDefaultPlayStyle
  else
    let championStats := performances.foldl (fun (m : List (String × ChampAcc)) p =>
      updateAssoc m p.championName (⟨0, 0, 0, 0⟩ : ChampAcc) (fun s =>
        { games := s.games + 1
          wins := s.wins + (if p.win then 1 else 0)
          kda := s.kda + (p.kills + p.assists) / max p.deaths 1
          damage := s.damage + p.totalDamageDealtToChampions })) []
    let positionStats := performances.foldl (fun (m : List (String × PosAcc)) p =>
      updateAssoc m p.teamPosition (⟨0, 0⟩ : PosAcc) (fun s =>
        { games := s.games + 1, wins := s.wins + (if p.win then 1 else 0) })) []
    let mostPlayedChampion := (List.mergeSort championStats (fun a b => b.2.games ≤ a.2.games)).head?
    let mostPlayedPosition := (List.mergeSort positionStats (fun a b => b.2.games ≤ a.2.games)).head?
    let uniqueChampions := championStats.length
    let uniquePositions := positionStats.length
    let versatility := (JSNum.fin 100).minJS
      (.fin ((uniqueChampions * 10 + uniquePositions * 15 : ℕ) : ℝ))
    { mostPlayedChampion := mostPlayedChampion.map (fun e =>
        { name := e.1
          games := e.2.games
          winRate := ((JSNum.fin e.2.wins).div (.fin e.2.games)).mul (.fin 100)
          avgKDA := (JSNum.fin e.2.kda).div (.fin e.2.games) })
      mostPlayedPosition := mostPlayedPosition.map (fun e =>
        { position := e.1
          games := e.2.games
          winRate := ((JSNum.fin e.2.wins).div (.fin e.2.games)).mul (.fin 100) })
      championPool := championStats.map (fun e =>
        { name := e.1
          games := e.2.games
          winRate := ((JSNum.fin e.2.wins).div (.fin e.2.games)).mul (.fin 100)
          avgKDA := (JSNum.fin e.2.kda).div (.fin e.2.games) })
      positionFlexibility := positionStats.map (fun e =>
        { position := e.1
          games := e.2.games
          winRate := ((JSNum.fin e.2.wins).div (.fin e.2.games)).mul (.fin 100) })
      versatility := versatility
      specialization :=
        match mostPlayedChampion with
        | some e => ((JSNum.fin e.2.games).div (.fin performances.length)).mul (.fin 100)
        | none => .fin 0 }

/-- Abstract rendering of a JS number inside a template string (toFixed and
interpolation).  The rendered digits are irrelevant to every claim; only
which template strings get appended matters, so the rendering is a fixed
placeholder. -/
def jsToFixed (digits : ℕ) (x : JSNum) : String := ""

/-- Abstract default number-to-string rendering in template literals. -/
def jsNumStr (x : JSNum) : String := ""

/-- generateDynamicOneLiner (lines 456 to 505). -/
noncomputable def generateDynamicOneLiner (score : JSNum) (trend : Trend)
    (metrics : PerformanceMetrics) (playStyle : PlayStyleAnalysis) : String :=
  let currentTrend :=
    match trend with
    | .ascending => "상승세"
    | .stable => "안정적"
    | .descending => "하락세"
  if score.geb (.fin 85) then
    if metrics.avgKDA.gtb (.fin 3.0) && metrics.avgCSPerMinute.gtb (.fin 7) then
      "뛰어난 파밍과 킬 관여로 게임을 주도하는 " ++ currentTrend ++ " 캐리형 플레이어"
    else if metrics.avgVisionScorePerMinute.gtb (.fin 2.5) then
      "탁월한 시야 관리와 맵 컨트롤로 팀을 이끄는 " ++ currentTrend ++ " 전략가형 플레이어"
    else
      "모든 영역에서 뛰어난 실력을 보이는 " ++ currentTrend ++ " 올라운드 플레이어"
  else if score.geb (.fin 70) then
    if metrics.consistency.gtb (.fin 75) then
      "일관성 있는 플레이로 팀에 안정감을 주는 " ++ currentTrend ++ " 신뢰형 플레이어"
    else if playStyle.versatility.gtb (.fin 60) then
      "다양한 챔피언과 포지션을 소화하는 " ++ currentTrend ++ " 만능형 플레이어"
    else
      "꾸준한 성장과 발전 가능성을 보이는 " ++ currentTrend ++ " 성장형 플레이어"
  else if score.geb (.fin 55) then
    if metrics.avgCSPerMinute.gtb (.fin 6) then
      "뛰어난 파밍 능력을 바탕으로 성장하는 " ++ currentTrend ++ " 농부형 플레이어"
    else if metrics.objectiveParticipation.gtb (.fin 2) then
      "오브젝트 싸움에서 빛을 발하는 " ++ currentTrend ++ " 한타형 플레이어"
    else
      "현재 티어에서 " ++ currentTrend ++ " 플레이를 보이며 발전 중인 플레이어"
  else if score.geb (.fin 40) then
    "기본기 향상을 통해 한 단계 도약을 준비하는 " ++ currentTrend ++ " 도전형 플레이어"
  else
    "체계적인 연습과 게임 이해도 향상이 필요한 " ++ currentTrend ++ " 학습형 플레이어"

/-- identifyAdvancedStrengths (lines 508 to 556): push-if-condition list
building, a fallback entry when nothing matched, then slice(0, 4). -/
noncomputable def identifyAdvancedStrengths (metrics : PerformanceMetrics)
    (playStyle : PlayStyleAnalysis) (rankData : RankData) : List String :=
  let strengths :=
    (if metrics.avgKDA.gtb (.fin 2.5) then
      ["우수한 KDA " ++ jsToFixed 1 metrics.avgKDA ++ "로 안정적인 플레이 실력"] else []) ++
    (if metrics.avgCSPerMinute.gtb (.fin 6.5) then
      ["분당 " ++ jsToFixed 1 metrics.avgCSPerMinute ++ " CS의 뛰어난 파밍 능력"] else []) ++
    (if metrics.avgVisionScorePerMinute.gtb (.fin 2.0) then
      ["분당 " ++ jsToFixed 1 metrics.avgVisionScorePerMinute ++ " 시야 점수의 탁월한 맵 컨트롤"] else []) ++
    (if metrics.recentWinRate.gtb (.fin 65) then
      ["최근 " ++ jsToFixed 0 metrics.recentWinRate ++ "% 승률로 강력한 상승 모멘텀"] else []) ++
    (if metrics.consistency.gtb (.fin 75) then
      ["일관성 있는 퍼포먼스로 팀에 안정감 제공"] else []) ++
    (if metrics.objectiveParticipation.gtb (.fin 2.5) then
      ["드래곤, 바론 등 주요 오브젝트 싸움에서 높은 기여도"] else []) ++
    (if playStyle.versatility.gtb (.fin 70) then
      [toString playStyle.championPool.length ++ "개 챔피언으로 높은 챔피언 숙련도"] else []) ++
    (match playStyle.mostPlayedChampion with
     | some c =>
        if c.winRate.gtb (.fin 70) then
          ["주력 챔피언 " ++ c.name ++ "에서 " ++ jsToFixed 0 c.winRate ++ "% 승률"] else []
     | none => []) ++
    (let winRate := ((JSNum.fin rankData.wins).div (.fin (rankData.wins + rankData.losses))).mul (.fin 100)
     if winRate.gtb (.fin 60) then
       ["랭크 게임 " ++ jsToFixed 0 winRate ++ "% 승률로 꾸준한 티어 상승"] else [])
  (if strengths.isEmpty then ["게임에 대한 열정과 지속적인 참여 의지"] else strengths).take 4

/-- identifyAdvancedImprovements (lines 559 to 607). -/
noncomputable def identifyAdvancedImprovements (metrics : PerformanceMetrics)
    (playStyle : PlayStyleAnalysis) (rankData : RankData) : List String :=
  let improvements :=
    (if metrics.avgKDA.ltb (.fin 1.8) then
      ["데스 줄이기와 안전한 포지셔닝 연습으로 생존력 향상"] else []) ++
    (if metrics.avgCSPerMinute.ltb (.fin 5.5) then
      ["분당 CS를 " ++ jsToFixed 1 (metrics.avgCSPerMinute.add (.fin 1)) ++ "개 이상으로 향상시켜 골드 효율성 개선"] else []) ++
    (if metrics.avgVisionScorePerMinute.ltb (.fin 1.5) then
      ["와드 설치 및 시야 관리 능력 강화로 맵 컨트롤 향상"] else []) ++
    (if metrics.consistency.ltb (.fin 60) then
      ["일관성 있는 플레이를 위한 주력 챔피언 숙련도 집중 향상"] else []) ++
    (if metrics.objectiveParticipation.ltb (.fin 1.5) then
      ["드래곤, 바론 타이밍 인식 향상으로 오브젝트 관여율 증대"] else []) ++
    (if metrics.avgDamagePerMinute.ltb (.fin 400) then
      ["딜량 향상을 위한 아이템 빌드 최적화와 교전 참여도 증가"] else []) ++
    (if playStyle.versatility.ltb (.fin 40) then
      ["다양한 챔피언 학습으로 픽밴 단계에서의 유연성 확보"] else []) ++
    (if playStyle.specialization.ltb (.fin 30) then
      ["주력 챔피언 선정 후 집중적인 숙련도 향상"] else []) ++
    (let winRate := ((JSNum.fin rankData.wins).div (.fin (rankData.wins + rankData.losses))).mul (.fin 100)
     if winRate.ltb (.fin 55) then
       ["게임 이해도 향상과 메타 챔피언 학습으로 승률 개선"] else [])
  (if improvements.isEmpty then ["현재 실력 유지를 위한 꾸준한 연습과 메타 적응"] else improvements).take 4

/-- identifyMatchBasedStrengths (lines 142 to 157): no slice, at most three
conditional entries plus the fallback. -/
noncomputable def identifyMatchBasedStrengths (metrics : List Performance)
    (playStyle : PlayStyleAnalysis) : List String :=
  let avgKDA := (jsSum (fun p => p.kda) metrics).div (.fin metrics.length)
  let avgCSPerMin := (jsSum (fun p => p.csPerMinute) metrics).div (.fin metrics.length)
  let winRate := (JSNum.fin ((metrics.filter (fun p => p.win)).length)).div (.fin metrics.length)
  let strengths :=
    (if avgKDA.geb (.fin 2.5) then ["높은 KDA로 안정적인 플레이 능력"] else []) ++
    (if avgCSPerMin.geb (.fin 7.0) then ["우수한 CS 수급 능력"] else []) ++
    (if winRate.geb (.fin 0.6) then ["높은 승률로 게임 캐리 능력"] else [])
  if strengths.isEmpty then ["게임에 대한 열정과 개선 의지"] else strengths

/-- identifyMatchBasedImprovements (lines 159 to 174). -/
noncomputable def identifyMatchBasedImprovements (metrics : List Performance)
    (playStyle : PlayStyleAnalysis) : List String :=
  let avgKDA := (jsSum (fun p => p.kda) metrics).div (.fin metrics.length)
  let avgCSPerMin := (jsSum (fun p => p.csPerMinute) metrics).div (.fin metrics.length)
  let avgDeaths := (jsSum (fun p => JSNum.fin p.deaths) metrics).div (.fin metrics.length)
  let improvements :=
    (if avgKDA.ltb (.fin 1.5) then ["데스 줄이기와 안전한 포지셔닝 연습"] else []) ++
    (if avgCSPerMin.ltb (.fin 6.0) then ["CS 수급 패턴 개선 및 라인전 실력 향상"] else []) ++
    (if avgDeaths.gtb (.fin 7) then ["맵 인식 능력 향상과 위험 상황 판단력 개선"] else [])
  if improvements.isEmpty then ["지속적인 게임 플레이를 통한 경험 축적"] else improvements

/-- generateMatchBasedAnalysis (lines 130 to 140). -/
noncomputable def generateMatchBasedAnalysis (score winRate kda csPerMin : JSNum) : String :=
  if score.geb (.fin 80) then
    "뛰어난 게임 퍼포먼스로 " ++ jsNumStr winRate ++ "% 승률과 " ++ jsToFixed 1 kda ++
      " KDA를 기록하는 상위권 실력의 플레이어"
  else if score.geb (.fin 65) then
    "안정적인 플레이로 " ++ jsNumStr winRate ++ "% 승률을 유지하며 꾸준한 성장세를 보이는 플레이어"
  else if score.geb (.fin 50) then
    "평균적인 실력으로 " ++ jsNumStr winRate ++ "% 승률을 기록하며 개선 여지가 있는 플레이어"
  else
    jsNumStr winRate ++ "% 승률로 실력 향상이 필요하며 기본기 연습을 통한 성장이 기대되는 플레이어"

/-- The tier base-score lookup table inside calculateWeightedPotentialScore
(lines 426 to 429). -/
def tierScores : List (String × ℝ) :=
  [("IRON", 15), ("BRONZE", 25), ("SILVER", 35), ("GOLD", 45), ("PLATINUM", 60),
   ("DIAMOND", 75), ("MASTER", 85), ("GRANDMASTER", 90), ("CHALLENGER", 95)]

/-- calculateWeightedPotentialScore (lines 422 to 453).  Every table value is
nonzero, so the idiom tierScores[tier] || 30 yields 30 exactly when the tier
is not a key of the table.  The playStyleAnalysis parameter is accepted and
never read, as in the source. -/
noncomputable def calculateWeightedPotentialScore (rankData : RankData)
    (performanceMetrics : PerformanceMetrics) (playStyleAnalysis : PlayStyleAnalysis) : JSNum :=
  let baseScore : ℝ := (tierScores.lookup rankData.tier).getD 30
  let score1 := (JSNum.fin 0).add ((JSNum.fin baseScore).mul (.fin 0.3))
  let kdaScore := (JSNum.fin 100).minJS (performanceMetrics.avgKDA.mul (.fin 25))
  let score2 := score1.add (kdaScore.mul (.fin 0.25))
  let csScore := (JSNum.fin 100).minJS (performanceMetrics.avgCSPerMinute.mul (.fin 12))
  let score3 := score2.add (csScore.mul (.fin 0.15))
  let visionScore := (JSNum.fin 100).minJS (performanceMetrics.avgVisionScorePerMinute.mul (.fin 40))
  let score4 := score3.add (visionScore.mul (.fin 0.15))
  let winRateScore := performanceMetrics.recentWinRate
  let score5 := score4.add (winRateScore.mul (.fin 0.1))
  let score6 := score5.add (performanceMetrics.consistency.mul (.fin 0.05))
  ((JSNum.fin 0).maxJS ((JSNum.fin 100).minJS score6)).roundJS

/-- determineTrend (lines 640 to 644). -/
noncomputable def determineTrend (performance : PerformanceMetrics) : Trend :=
  if performance.recentWinRate.gtb (.fin 60) && performance.avgKDA.gtb (.fin 2.0) then .ascending
  else if performance.recentWinRate.ltb (.fin 45) && performance.avgKDA.ltb (.fin 1.5) then .descending
  else .stable

/-- The validPerformances constant of analyzeByMatchDataOnly (line 78).  The
filter for non-null entries is the identity here because the model list
already contains only the matched records. -/
noncomputable def matchOnlyValidPerformances (matchList : List MatchData) (summonerPuuid : String) :
    List Performance :=
  (calculatePerformanceMetrics matchList summonerPuuid).performances

/-- The winRate constant of analyzeByMatchDataOnly (lines 79 to 80). -/
noncomputable def matchOnlyWinRate (matchList : List MatchData) (summonerPuuid : String) : JSNum :=
  let vp := matchOnlyValidPerformances matchList summonerPuuid
  let wins := (vp.filter (fun p => p.win)).length
  (((JSNum.fin wins).div (.fin vp.length)).mul (.fin 100)).roundJS

/-- The avgKDA constant of analyzeByMatchDataOnly (line 83). -/
noncomputable def matchOnlyAvgKDA (matchList : List MatchData) (summonerPuuid : String) : JSNum :=
  let vp := matchOnlyValidPerformances matchList summonerPuuid
  (jsSum (fun p => p.kda) vp).div (.fin vp.length)

/-- The avgCSPerMin constant of analyzeByMatchDataOnly (line 84). -/
noncomputable def matchOnlyAvgCSPerMin (matchList : List MatchData) (summonerPuuid : String) : JSNum :=
  let vp := matchOnlyValidPerformances matchList summonerPuuid
  (jsSum (fun p => p.csPerMinute) vp).div (.fin vp.length)

/-- The avgVisionScore constant of analyzeByMatchDataOnly (line 85). -/
noncomputable def matchOnlyAvgVisionScore (matchList : List MatchData) (summonerPuuid : String) : JSNum :=
  let vp := matchOnlyValidPerformances matchList summonerPuuid
  (jsSum (fun p => p.visionScorePerMinute) vp).div (.fin vp.length)

/-- The potential-score accumulation of analyzeByMatchDataOnly (lines 87 to
111), ending with Math.min(100, Math.max(0, score)). -/
noncomputable def matchOnlyScoreCalc (avgKDA winRate avgCSPerMin avgVisionScore : JSNum) : JSNum :=
  let s0 : JSNum := .fin 50
  let s1 := s0.add (if avgKDA.geb (.fin 3.0) then .fin 25
    else if avgKDA.geb (.fin 2.0) then .fin 15
    else if avgKDA.geb (.fin 1.5) then .fin 10
    else if avgKDA.geb (.fin 1.0) then .fin 5 else .fin 0)
  let s2 := s1.add (if winRate.geb (.fin 70) then .fin 25
    else if winRate.geb (.fin 60) then .fin 20
    else if winRate.geb (.fin 55) then .fin 15
    else if winRate.geb (.fin 50) then .fin 10 else .fin 0)
  let s3 := s2.add (if avgCSPerMin.geb (.fin 8.0) then .fin 15
    else if avgCSPerMin.geb (.fin 6.5) then .fin 10
    else if avgCSPerMin.geb (.fin 5.0) then .fin 5 else .fin 0)
  let s4 := s3.add (if avgVisionScore.geb (.fin 2.0) then .fin 10
    else if avgVisionScore.geb (.fin 1.5) then .fin 5 else .fin 0)
  (JSNum.fin 100).minJS ((JSNum.fin 0).maxJS s4)

/-- The trend ternary of analyzeByMatchDataOnly (line 113). -/
noncomputable def matchOnlyTrend (winRate : JSNum) : Trend :=
  if winRate.geb (.fin 60) then .ascending
  else if winRate.leb (.fin 40) then .descending
  else .stable

/-- analyzeByMatchDataOnly (lines 53 to 128). -/
noncomputable def analyzeByMatchDataOnly (summonerName : String) (recentMatches : List MatchData)
    (summonerPuuid : String) : PotentialAnalysis :=
  if recentMatches.length = 0 then
    { summonerName := summonerName
      rank := "Unknown"
      tier := ""
      lp := 0
      winRate := .fin 0
      recentGames := 0
      potentialScore := .fin 50
      potentialText := "최근 경기 데이터가 부족하여 분석이 어렵습니다"
      strengths := ["더 많은 게임 플레이 권장"]
      improvements := ["게임 활동량 증가 필요"]
      trend := .stable }
  else
    let playStyleAnalysis := analyzePlayStyle recentMatches summonerPuuid
    let validPerformances := matchOnlyValidPerformances recentMatches summonerPuuid
    let winRate := matchOnlyWinRate recentMatches summonerPuuid
    let avgKDA := matchOnlyAvgKDA recentMatches summonerPuuid
    let avgCSPerMin := matchOnlyAvgCSPerMin recentMatches summonerPuuid
    let avgVisionScore := matchOnlyAvgVisionScore recentMatches summonerPuuid
    let potentialScore := matchOnlyScoreCalc avgKDA winRate avgCSPerMin avgVisionScore
    { summonerName := summonerName
      rank := "Performance-Based"
      tier := ""
      lp := 0
      winRate := winRate
      recentGames := recentMatches.length
      potentialScore := potentialScore
      potentialText := generateMatchBasedAnalysis potentialScore winRate avgKDA avgCSPerMin
      strengths := identifyMatchBasedStrengths validPerformances playStyleAnalysis
      improvements := identifyMatchBasedImprovements validPerformances playStyleAnalysis
      trend := matchOnlyTrend winRate }

/-- analyzePotential (lines 4 to 50).  A null rankData goes to the
match-only path; an array is searched for the solo-queue entry; a single
rank object is used directly. -/
noncomputable def analyzePotential (summonerName : String) (rankData : RankDataInput)
    (recentMatches : List MatchData) (summonerPuuid : String) : PotentialAnalysis :=
  match rankData with
  | .null => analyzeByMatchDataOnly summonerName recentMatches summonerPuuid
  | rd =>
    let soloQueueData : Option RankData :=
      match rd with
      | .array rs => rs.find? (fun r => r.queueType = "RANKED_SOLO_5x5")
      | .single r => some r
      | .null => none
    match soloQueueData with
    | none => analyzeByMatchDataOnly summonerName recentMatches summonerPuuid
    | some soloQueue =>
      let winRate := (((JSNum.fin soloQueue.wins).div (.fin (soloQueue.wins + soloQueue.losses))).mul
        (.fin 100)).roundJS
      let performanceMetrics := calculatePerformanceMetrics recentMatches summonerPuuid
      let playStyleAnalysis := analyzePlayStyle recentMatches summonerPuuid
      let potentialScore := calculateWeightedPotentialScore soloQueue performanceMetrics playStyleAnalysis
      let trend := determineTrend performanceMetrics
      { summonerName := summonerName
        rank := soloQueue.tier
        tier := soloQueue.rank
        lp := soloQueue.leaguePoints
        winRate := winRate
        recentGames := recentMatches.length
        potentialScore := potentialScore
        potentialText := generateDynamicOneLiner potentialScore trend performanceMetrics playStyleAnalysis
        strengths := identifyAdvancedStrengths performanceMetrics playStyleAnalysis soloQueue
        improvements := identifyAdvancedImprovements performanceMetrics playStyleAnalysis soloQueue
        trend := trend }

/-- The synthetic rank entry built by fetchRankData for unranked players
(riotApi.ts lines 164 to 178), restricted to the RankData fields the
analyzer reads. -/
def unrankedRankEntry : RankData where
  queueType := "RANKED_SOLO_5x5"
  tier := "UNRANKED"
  rank := ""
  leaguePoints := 0
  wins := 0
  losses := 0

/-!
The inbound API route (src/app/api/analysis/route.ts).  The handler is a
sequence of awaited upstream calls inside one try/catch.  Each upstream
call that can throw is modelled as an Except value supplied by a RouteWorld
record (the outcome of that call in the modelled request); fetchRankData
and fetchMultipleMatchDetails catch internally and never throw, so they
appear as plain values.  Thrown values are Error objects, possibly carrying
the numeric status of RiotApiError.
-/

structure ThrownError where
  name : String
  message : String
  status : Option ℤ

/-- The string produced by error.toString() for an Error object. -/
def ThrownError.toStr (e : ThrownError) : String := e.name ++ ": " ++ e.message

structure RequestBody where
  summonerInput : Option String

structure AccountData where
  puuid : Option String

structure SummonerData where
  id : Option String

/-- The outcomes of the upstream calls awaited by the POST handler for one
request.  The account field covers both branches of the Riot-ID versus
legacy-name dispatch: both branches rethrow their fetch error unchanged, so
only the outcome matters. -/
structure RouteWorld where
  account : Except ThrownError AccountData
  summoner : Except ThrownError SummonerData
  rank : RankDataInput
  matchIds : Except ThrownError (List String)
  matchDetails : List MatchData

inductive ResponseBody where
  | success : PotentialAnalysis → ResponseBody
  | failure : String → Option String → ResponseBody

structure RouteResponse where
  status : ℕ
  body : ResponseBody

/-- JS truthiness of an optional string: undefined, null and the empty
string are falsy. -/
def truthyStr : Option String → Bool
  | none => false
  | some s => !s.isEmpty

/-- The catch block of the POST handler (route.ts lines 73 to 97): a thrown
object whose status property is 429 becomes a 429 rate-limit response, any
other thrown error becomes a 500 carrying error.message and
error.toString(). -/
def handleError (e : ThrownError) : RouteResponse :=
  if e.status = some 429 then
    { status := 429
      body := .failure "Rate limit exceeded. Please wait a moment before trying again."
        (some "Too many requests to Riot API. Please try again in a few seconds.") }
  else
    { status := 500, body := .failure e.message (some e.toStr) }

/-- The POST handler (route.ts lines 5 to 98).  bodyResult is the outcome of
request.json(); a parse failure is a thrown error reaching the catch block.
No retry of any upstream call exists in this control flow: each Except in
the world is consulted at most once and an error goes straight to
handleError. -/
noncomputable def POST (bodyResult : Except ThrownError RequestBody) (w : RouteWorld) :
    RouteResponse :=
  match bodyResult with
  | .error e => handleError e
  | .ok requestBody =>
    if !truthyStr requestBody.summonerInput then
      { status := 400, body := .failure "Summoner input is required" none }
    else
      match w.account with
      | .error e => handleError e
      | .ok accountData =>
        if !truthyStr accountData.puuid then
          handleError { name := "Error", message := "PUUID not found", status := none }
        else
          match w.summoner with
          | .error e => handleError e
          | .ok _ =>
            match w.matchIds with
            | .error e => handleError e
            | .ok _ =>
              { status := 200
                body := .success (analyzePotential
                  (requestBody.summonerInput.getD "")
                  w.rank
                  w.matchDetails
                  (accountData.puuid.getD "")) }

/-!
Spec-side definitions.  These follow the wording of the specification (not
the code) and are used on the right-hand side of refinement theorems.
-/

/-- Modelled from the spec: "round to nearest integer" after clamping to
[0, 100], on exact reals (round half up, as Math.round does). -/
noncomputable def specRound (x : ℝ) : ℤ := ⌊x + 1/2⌋

/-- Modelled from the spec: the rank-present weighted-sum score --- tier
base × 0.30 + min(100, KDA×25) × 0.25 + min(100, CS/min×12) × 0.15 +
min(100, vision/min×40) × 0.15 + recentWinRate × 0.10 + consistency × 0.05,
clamped to [0, 100] and rounded to the nearest integer. -/
noncomputable def specWeightedScore (tierBase kda cs vision winRate consistency : ℝ) : ℤ :=
  specRound (max 0 (min 100
    (tierBase * 0.3 + min 100 (kda * 25) * 0.25 + min 100 (cs * 12) * 0.15 +
      min 100 (vision * 40) * 0.15 + winRate * 0.1 + consistency * 0.05)))

/-- Modelled from the spec: the rank-absent threshold score --- base 50 plus
the literal threshold bonuses, clamped to [0, 100]. -/
noncomputable def specMatchOnlyScore (kda winRate cs vision : ℝ) : ℝ :=
  min 100 (max 0 (50 +
    (if 3.0 ≤ kda then 25 else if 2.0 ≤ kda then 15 else if 1.5 ≤ kda then 10
      else if 1.0 ≤ kda then 5 else 0) +
    (if 70 ≤ winRate then 25 else if 60 ≤ winRate then 20 else if 55 ≤ winRate then 15
      else if 50 ≤ winRate then 10 else 0) +
    (if 8.0 ≤ cs then 15 else if 6.5 ≤ cs then 10 else if 5.0 ≤ cs then 5 else 0) +
    (if 2.0 ≤ vision then 10 else if 1.5 ≤ vision then 5 else 0)))

/-- Modelled from the spec: the population standard deviation of a list of
real values. -/
noncomputable def specPopStdDev (values : List ℝ) : ℝ :=
  Real.sqrt (((values.map (fun v => (v - values.sum / values.length) ^ 2)).sum) / values.length)

/-- Modelled from the spec: map a standard deviation to
max(0, min(100, 100 - stddev*20)). -/
noncomputable def specMetricConsistency (values : List ℝ) : ℝ :=
  max 0 (min 100 (100 - specPopStdDev values * 20))

/-- Modelled from the spec: the consistency score as the arithmetic mean of
the three mapped standard deviations of per-match KDA, damage per minute
and vision per minute. -/
noncomputable def specConsistency (kdas damages visions : List ℝ) : ℝ :=
  (specMetricConsistency kdas + specMetricConsistency damages + specMetricConsistency visions) / 3

/-- The JS number x is finite. -/
def JSNum.IsFin (x : JSNum) : Prop := ∃ r : ℝ, x = .fin r

/-- The JS number x is a finite integer value within [lo, hi]. -/
def JSNum.IsIntIn (x : JSNum) (lo hi : ℤ) : Prop :=
  ∃ k : ℤ, lo ≤ k ∧ k ≤ hi ∧ x = .fin (k : ℝ)

/-!
Concrete sample inputs used by witnesses and counterexamples.
-/

/-- A participant whose numeric stats are all zero. -/
def baseParticipant : ParticipantData where
  puuid := ""
  win := false
  kills := 0
  deaths := 0
  assists := 0
  totalMinionsKilled := 0
  neutralMinionsKilled := 0
  visionScore := 0
  totalDamageDealtToChampions := 0
  goldEarned := 0
  wardsPlaced := 0
  wardsKilled := 0
  championName := "Annie"
  teamPosition := "MIDDLE"
  dragonKills := 0
  baronKills := 0
  turretKills := 0
  damageDealtToObjectives := 0
  totalDamageTaken := 0
  totalHeal := 0
  timeCCingOthers := 0
  summonerLevel := 30

/-- A 30-minute match played only by a different player. -/
def otherPlayerMatch : MatchData :=
  { info := { gameDuration := 1800, participants := [{ baseParticipant with puuid := "someone-else" }] } }

/-- The analyzed player "player" with 1 damage dealt and all other stats
zero. -/
def zeroDurationParticipant : ParticipantData :=
  { baseParticipant with puuid := "player", totalDamageDealtToChampions := 1 }

/-- A match record with gameDuration 0 (as delivered for remade games)
played by zeroDurationParticipant.  Its damage per minute is
1 / 0 = Infinity. -/
def zeroDurationMatch : MatchData :=
  { info := { gameDuration := 0, participants := [zeroDurationParticipant] } }

/-- A GOLD solo-queue rank entry. -/
def goldRank : RankData where
  queueType := "RANKED_SOLO_5x5"
  tier := "GOLD"
  rank := "II"
  leaguePoints := 0
  wins := 1
  losses := 1

/-- A 10-minute match that "player" won with kda (0+0)/max(5,1) = 0. -/
def winNoKdaMatch : MatchData :=
  { info := { gameDuration := 600,
              participants := [{ baseParticipant with puuid := "player", win := true, deaths := 5 }] } }

/-- A one-minute performance of "player" with kda 0 (deaths 1). -/
noncomputable def perfKdaZero : Performance :=
  mkPerformance 60 { baseParticipant with puuid := "player", deaths := 1 }

/-- A one-minute performance of "player" with kda 10 (10 kills, 1 death). -/
noncomputable def perfKdaTen : Performance :=
  mkPerformance 60 { baseParticipant with puuid := "player", kills := 10, deaths := 1 }

/-- A one-minute performance of "player" with kda 1 (1 kill, 1 death). -/
noncomputable def perfKdaOne : Performance :=
  mkPerformance 60 { baseParticipant with puuid := "player", kills := 1, deaths := 1 }

/-- A world in which every upstream call succeeds and the player has no
rank data and no matches. -/
def okWorld : RouteWorld where
  account := .ok { puuid := some "puuid-1" }
  summoner := .ok { id := some "summoner-1" }
  rank := .null
  matchIds := .ok []
  matchDetails := []

/-- A rate-limit error as thrown by makeApiRequest on HTTP 429
(riotApi.ts lines 54 to 56). -/
def rateLimitError : ThrownError where
  name := "RiotApiError"
  message := "Rate limit exceeded"
  status := some 429

/-- A not-found error as thrown by makeApiRequest on HTTP 404. -/
def notFoundError : ThrownError where
  name := "RiotApiError"
  message := "Resource not found"
  status := some 404

/-!
Theorems.
-/

namespace JSNum

@[simp] theorem add_fin_fin (a b : ℝ) : (fin a).add (fin b) = fin (a + b) := rfl
@[simp] theorem sub_fin_fin (a b : ℝ) : (fin a).sub (fin b) = fin (a - b) := rfl
@[simp] theorem mul_fin_fin (a b : ℝ) : (fin a).mul (fin b) = fin (a * b) := rfl
@[simp] theorem minJS_fin_fin (a b : ℝ) : (fin a).minJS (fin b) = fin (min a b) := rfl
@[simp] theorem maxJS_fin_fin (a b : ℝ) : (fin a).maxJS (fin b) = fin (max a b) := rfl
@[simp] theorem orZero_fin (a : ℝ) : (fin a).orZero = fin a := rfl
@[simp] theorem orZero_nan : (nan).orZero = fin 0 := rfl
@[simp] theorem orZero_posInf : (posInf).orZero = posInf := rfl
@[simp] theorem orZero_negInf : (negInf).orZero = negInf := rfl
@[simp] theorem roundJS_fin (a : ℝ) : (fin a).roundJS = fin (⌊a + 1/2⌋ : ℤ) := rfl
@[simp] theorem roundJS_nan : (nan).roundJS = nan := rfl
@[simp] theorem add_fin_nan (a : ℝ) : (fin a).add nan = nan := rfl
@[simp] theorem add_nan (x : JSNum) : (nan).add x = nan := by cases x <;> rfl
@[simp] theorem sub_fin_nan (a : ℝ) : (fin a).sub nan = nan := rfl
@[simp] theorem sub_nan (x : JSNum) : (nan).sub x = nan := by cases x <;> rfl
@[simp] theorem mul_nan (x : JSNum) : (nan).mul x = nan := by cases x <;> rfl
@[simp] theorem mul_fin_nan (a : ℝ) : (fin a).mul nan = nan := rfl
@[simp] theorem div_nan (x : JSNum) : (nan).div x = nan := by cases x <;> rfl
@[simp] theorem div_fin_nan (a : ℝ) : (fin a).div nan = nan := rfl
@[simp] theorem minJS_fin_nan (a : ℝ) : (fin a).minJS nan = nan := rfl
@[simp] theorem minJS_nan (x : JSNum) : (nan).minJS x = nan := by cases x <;> rfl
@[simp] theorem maxJS_fin_nan (a : ℝ) : (fin a).maxJS nan = nan := rfl
@[simp] theorem maxJS_nan (x : JSNum) : (nan).maxJS x = nan := by cases x <;> rfl
@[simp] theorem sqrtJS_nan : (nan).sqrtJS = nan := rfl
@[simp] theorem ltb_nan_left (x : JSNum) : (nan).ltb x = false := by cases x <;> rfl
@[simp] theorem leb_nan_left (x : JSNum) : (nan).leb x = false := by cases x <;> rfl

@[simp] theorem ltb_fin_fin (a b : ℝ) : (fin a).ltb (fin b) = decide (a < b) := rfl
@[simp] theorem leb_fin_fin (a b : ℝ) : (fin a).leb (fin b) = decide (a ≤ b) := rfl
@[simp] theorem ltb_fin_nan (a : ℝ) : (fin a).ltb nan = false := rfl
@[simp] theorem leb_fin_nan (a : ℝ) : (fin a).leb nan = false := rfl

theorem div_fin_fin (a b : ℝ) (hb : b ≠ 0) : (fin a).div (fin b) = fin (a / b) := by
  simp [div, hb]

@[simp] theorem div_fin_zero_zero : (fin 0).div (fin 0) = nan := by simp [div]

theorem sqrtJS_fin (a : ℝ) (ha : 0 ≤ a) : (fin a).sqrtJS = fin (Real.sqrt a) := by
  simp [sqrtJS, not_lt.mpr ha]

theorem jsSum_fin {α : Type} (f : α → JSNum) (g : α → ℝ) (l : List α)
    (h : ∀ x ∈ l, f x = fin (g x)) : jsSum f l = fin ((l.map g).sum) := by
  suffices H : ∀ a : ℝ, l.foldl (fun acc x => acc.add (f x)) (fin a) = fin (a + (l.map g).sum) by
    simpa [jsSum] using H 0
  induction l with
  | nil => intro a; simp
  | cons x xs ih =>
      intro a
      have hx : f x = fin (g x) := h x (by simp)
      rw [List.foldl_cons, hx, add_fin_fin]
      rw [ih (fun y hy => h y (by simp [hy])) (a + g x)]
      simp [List.map_cons, List.sum_cons]
      ring_nf

end JSNum

/-- If no participant record carries the analyzed puuid, the aggregator
falls back to the default metrics record. -/
theorem metrics_of_unmatched (matchList : List MatchData) (summonerPuuid : String)
    (h : ∀ mt ∈ matchList, ∀ p ∈ mt.info.participants, p.puuid ≠ summonerPuuid) :
    calculatePerformanceMetrics matchList summonerPuuid = getDefaultMetrics := by
  unfold calculatePerformanceMetrics
  have hperf : matchedPerformances matchList summonerPuuid = [] := by
    unfold matchedPerformances
    rw [List.filterMap_eq_nil]
    intro a ha
    rw [List.mem_map] at ha
    obtain ⟨mt, hmt, rfl⟩ := ha
    have hfind : mt.info.participants.find? (fun p => decide (p.puuid = summonerPuuid)) = none := by
      rw [List.find?_eq_none]
      intro p hp
      simp [h mt hmt p hp]
    simp [hfind]
  simp [hperf]

/-- C4: with zero matched participant records the Metrics Aggregator returns
exactly the documented default metrics record (recentWinRate 50, avgKDA 1.0,
avgCSPerMinute 5, avgVisionScorePerMinute 1, consistency 50, and the other
documented constants) and, being a total function, does not raise. -/
theorem zero_matched_records_yield_default_metrics
    (matchList : List MatchData) (summonerPuuid : String)
    (h : ∀ mt ∈ matchList, ∀ p ∈ mt.info.participants, p.puuid ≠ summonerPuuid) :
    calculatePerformanceMetrics matchList summonerPuuid = getDefaultMetrics ∧
    getDefaultMetrics.recentWinRate = .fin 50 ∧
    getDefaultMetrics.avgKDA = .fin 1.0 ∧
    getDefaultMetrics.avgCSPerMinute = .fin 5 ∧
    getDefaultMetrics.avgVisionScorePerMinute = .fin 1 ∧
    getDefaultMetrics.consistency = .fin 50 ∧
    getDefaultMetrics.gameImpact = .fin 50 ∧
    getDefaultMetrics.performances = [] :=
  ⟨metrics_of_unmatched matchList summonerPuuid h, rfl, rfl, rfl, rfl, rfl, rfl, rfl⟩

/-- Witness for C4 at a concrete one-match list whose only participant is a
different player. -/
theorem zero_matched_records_yield_default_metrics_witness :
    calculatePerformanceMetrics [otherPlayerMatch] "player" = getDefaultMetrics ∧
    getDefaultMetrics.recentWinRate = .fin 50 ∧
    getDefaultMetrics.avgKDA = .fin 1.0 ∧
    getDefaultMetrics.avgCSPerMinute = .fin 5 ∧
    getDefaultMetrics.avgVisionScorePerMinute = .fin 1 ∧
    getDefaultMetrics.consistency = .fin 50 ∧
    getDefaultMetrics.gameImpact = .fin 50 ∧
    getDefaultMetrics.performances = [] := by
  refine zero_matched_records_yield_default_metrics [otherPlayerMatch] "player" ?_
  intro mt hmt p hp
  simp only [List.mem_singleton] at hmt
  subst hmt
  simp only [otherPlayerMatch, List.mem_singleton] at hp
  subst hp
  simp

/-- C9: in the match-only path, when a non-empty match list contains no
record for the analyzed puuid, validPerformances is empty and the unguarded
divisions by its length make winRate, avgKDA, avgCSPerMin and
avgVisionScore all NaN (0/0), not the documented defaults; the NaN winRate
is stored in the returned analysis. -/
theorem match_only_unmatched_divisions_are_nan
    (matchList : List MatchData) (summonerPuuid : String)
    (hne : matchList ≠ [])
    (h : ∀ mt ∈ matchList, ∀ p ∈ mt.info.participants, p.puuid ≠ summonerPuuid) :
    matchOnlyValidPerformances matchList summonerPuuid = [] ∧
    matchOnlyWinRate matchList summonerPuuid = .nan ∧
    matchOnlyAvgKDA matchList summonerPuuid = .nan ∧
    matchOnlyAvgCSPerMin matchList summonerPuuid = .nan ∧
    matchOnlyAvgVisionScore matchList summonerPuuid = .nan ∧
    ∀ summonerName, (analyzeByMatchDataOnly summonerName matchList summonerPuuid).winRate = .nan := by
  have hm := metrics_of_unmatched matchList summonerPuuid h
  have hvp : matchOnlyValidPerformances matchList summonerPuuid = [] := by
    simp [matchOnlyValidPerformances, hm, getDefaultMetrics]
  have hwr : matchOnlyWinRate matchList summonerPuuid = .nan := by
    simp [matchOnlyWinRate, hvp, jsSum]
  refine ⟨hvp, hwr, ?_, ?_, ?_, ?_⟩
  · simp [matchOnlyAvgKDA, hvp, jsSum]
  · simp [matchOnlyAvgCSPerMin, hvp, jsSum]
  · simp [matchOnlyAvgVisionScore, hvp, jsSum]
  · intro summonerName
    have hlen : ¬ matchList.length = 0 := by
      simpa [List.length_eq_zero] using hne
    simp [analyzeByMatchDataOnly, hlen, hwr]

/-- Witness for C9 at a concrete non-empty match list without the analyzed
player. -/
theorem match_only_unmatched_divisions_are_nan_witness :
    matchOnlyValidPerformances [otherPlayerMatch] "player" = [] ∧
    matchOnlyWinRate [otherPlayerMatch] "player" = .nan ∧
    matchOnlyAvgKDA [otherPlayerMatch] "player" = .nan ∧
    matchOnlyAvgCSPerMin [otherPlayerMatch] "player" = .nan ∧
    matchOnlyAvgVisionScore [otherPlayerMatch] "player" = .nan ∧
    ∀ summonerName, (analyzeByMatchDataOnly summonerName [otherPlayerMatch] "player").winRate = .nan := by
  refine match_only_unmatched_divisions_are_nan [otherPlayerMatch] "player" (by simp) ?_
  intro mt hmt p hp
  simp only [List.mem_singleton] at hmt
  subst hmt
  simp only [otherPlayerMatch, List.mem_singleton] at hp
  subst hp
  simp

/-- The weighted scorer on finite metric values equals the spec formula for
whatever base score the tier lookup produced. -/
theorem weightedScore_eq_spec (r : RankData) (m : PerformanceMetrics) (ps : PlayStyleAnalysis)
    (kda cs vision wr cons : ℝ)
    (hkda : m.avgKDA = .fin kda) (hcs : m.avgCSPerMinute = .fin cs)
    (hvis : m.avgVisionScorePerMinute = .fin vision) (hwr : m.recentWinRate = .fin wr)
    (hcons : m.consistency = .fin cons) :
    calculateWeightedPotentialScore r m ps =
      .fin ((specWeightedScore ((tierScores.lookup r.tier).getD 30) kda cs vision wr cons : ℤ) : ℝ) := by
  unfold calculateWeightedPotentialScore
  rw [hkda, hcs, hvis, hwr, hcons]
  simp only [JSNum.mul_fin_fin, JSNum.minJS_fin_fin, JSNum.add_fin_fin, JSNum.maxJS_fin_fin,
    JSNum.roundJS_fin]
  unfold specWeightedScore specRound
  norm_num

/-- C5: with a rank entry present and a tier from the fixed lookup table,
the potential score is exactly the spec weighted formula
round(clamp(base×0.30 + min(100,KDA×25)×0.25 + min(100,CS×12)×0.15 +
min(100,vision×40)×0.15 + winRate×0.10 + consistency×0.05, 0, 100)). -/
theorem weighted_score_matches_spec_formula
    (r : RankData) (m : PerformanceMetrics) (ps : PlayStyleAnalysis)
    (kda cs vision wr cons b : ℝ)
    (hkda : m.avgKDA = .fin kda) (hcs : m.avgCSPerMinute = .fin cs)
    (hvis : m.avgVisionScorePerMinute = .fin vision) (hwr : m.recentWinRate = .fin wr)
    (hcons : m.consistency = .fin cons)
    (hb : tierScores.lookup r.tier = some b) :
    calculateWeightedPotentialScore r m ps =
      .fin ((specWeightedScore b kda cs vision wr cons : ℤ) : ℝ) := by
  have h := weightedScore_eq_spec r m ps kda cs vision wr cons hkda hcs hvis hwr hcons
  rwa [hb, Option.getD_some] at h

/-- Witness for C5: tier GOLD (base 45) with the default minimum metrics
(KDA 1.0, CS/min 5, vision/min 1, recentWinRate 50, consistency 50) scores
round(42.25) = 42. -/
theorem weighted_score_matches_spec_formula_witness :
    calculateWeightedPotentialScore goldRank getDefaultMetrics getDefaultPlayStyle = .fin 42 := by
  have h := weighted_score_matches_spec_formula goldRank getDefaultMetrics getDefaultPlayStyle
    1 5 1 50 50 45 (by norm_num [getDefaultMetrics]) rfl rfl rfl rfl
    (by simp [goldRank, tierScores, List.lookup])
  rw [h]
  norm_num [specWeightedScore, specRound, min_def, max_def]

/-- C10: a rank entry whose tier is none of the nine table keys (for
example the synthetic UNRANKED entry for unranked players) is scored with
the fallback tier base 30. -/
theorem unknown_tier_uses_fallback_base_30
    (r : RankData) (m : PerformanceMetrics) (ps : PlayStyleAnalysis)
    (kda cs vision wr cons : ℝ)
    (hkda : m.avgKDA = .fin kda) (hcs : m.avgCSPerMinute = .fin cs)
    (hvis : m.avgVisionScorePerMinute = .fin vision) (hwr : m.recentWinRate = .fin wr)
    (hcons : m.consistency = .fin cons)
    (htier : r.tier ∉ ["IRON", "BRONZE", "SILVER", "GOLD", "PLATINUM", "DIAMOND", "MASTER",
      "GRANDMASTER", "CHALLENGER"]) :
    calculateWeightedPotentialScore r m ps =
      .fin ((specWeightedScore 30 kda cs vision wr cons : ℤ) : ℝ) := by
  have hnone : tierScores.lookup r.tier = none := by
    simp only [List.mem_cons, List.not_mem_nil, or_false, not_or] at htier
    obtain ⟨h1, h2, h3, h4, h5, h6, h7, h8, h9⟩ := htier
    simp [tierScores, List.lookup, beq_eq_false_iff_ne.mpr h1, beq_eq_false_iff_ne.mpr h2,
      beq_eq_false_iff_ne.mpr h3, beq_eq_false_iff_ne.mpr h4, beq_eq_false_iff_ne.mpr h5,
      beq_eq_false_iff_ne.mpr h6, beq_eq_false_iff_ne.mpr h7, beq_eq_false_iff_ne.mpr h8,
      beq_eq_false_iff_ne.mpr h9]
  have h := weightedScore_eq_spec r m ps kda cs vision wr cons hkda hcs hvis hwr hcons
  rwa [hnone, Option.getD_none] at h

/-- Witness for C10: the synthetic UNRANKED entry with the default metrics
scores round(30×0.3 + 25×0.25 + 60×0.15 + 40×0.15 + 50×0.1 + 50×0.05) =
round(37.75) = 38 via the fallback base 30. -/
theorem unknown_tier_uses_fallback_base_30_witness :
    calculateWeightedPotentialScore unrankedRankEntry getDefaultMetrics getDefaultPlayStyle = .fin 38 := by
  have h := unknown_tier_uses_fallback_base_30 unrankedRankEntry getDefaultMetrics getDefaultPlayStyle
    1 5 1 50 50 (by norm_num [getDefaultMetrics]) rfl rfl rfl rfl
    (by simp [unrankedRankEntry])
  rw [h]
  norm_num [specWeightedScore, specRound, min_def, max_def]

/-- A four-level threshold chain on a finite JS number equals the
corresponding chain on reals. -/
theorem ite_chain4_fin (x t1 t2 t3 t4 v1 v2 v3 v4 : ℝ) :
    (if (JSNum.fin x).geb (.fin t1) then JSNum.fin v1
     else if (JSNum.fin x).geb (.fin t2) then .fin v2
     else if (JSNum.fin x).geb (.fin t3) then .fin v3
     else if (JSNum.fin x).geb (.fin t4) then .fin v4 else .fin 0) =
    .fin (if t1 ≤ x then v1 else if t2 ≤ x then v2 else if t3 ≤ x then v3
      else if t4 ≤ x then v4 else 0) := by
  simp only [JSNum.geb, JSNum.leb_fin_fin, decide_eq_true_eq]
  split_ifs <;> rfl

/-- A three-level threshold chain on a finite JS number equals the
corresponding chain on reals. -/
theorem ite_chain3_fin (x t1 t2 t3 v1 v2 v3 : ℝ) :
    (if (JSNum.fin x).geb (.fin t1) then JSNum.fin v1
     else if (JSNum.fin x).geb (.fin t2) then .fin v2
     else if (JSNum.fin x).geb (.fin t3) then .fin v3 else .fin 0) =
    .fin (if t1 ≤ x then v1 else if t2 ≤ x then v2 else if t3 ≤ x then v3 else 0) := by
  simp only [JSNum.geb, JSNum.leb_fin_fin, decide_eq_true_eq]
  split_ifs <;> rfl

/-- A two-level threshold chain on a finite JS number equals the
corresponding chain on reals. -/
theorem ite_chain2_fin (x t1 t2 v1 v2 : ℝ) :
    (if (JSNum.fin x).geb (.fin t1) then JSNum.fin v1
     else if (JSNum.fin x).geb (.fin t2) then .fin v2 else .fin 0) =
    .fin (if t1 ≤ x then v1 else if t2 ≤ x then v2 else 0) := by
  simp only [JSNum.geb, JSNum.leb_fin_fin, decide_eq_true_eq]
  split_ifs <;> rfl

/-- C6: without a rank entry the score is base 50 plus the literal
threshold bonuses (KDA, win rate, CS/min, vision/min), clamped to [0,100];
in particular KDA 3.5, winRate 75, CS/min 9, vision/min 2.5 give 125
clamped to 100. -/
theorem match_only_score_matches_spec_thresholds :
    (∀ kda wr cs vision : ℝ,
      matchOnlyScoreCalc (.fin kda) (.fin wr) (.fin cs) (.fin vision) =
        .fin (specMatchOnlyScore kda wr cs vision)) ∧
    matchOnlyScoreCalc (.fin 3.5) (.fin 75) (.fin 9) (.fin 2.5) = .fin 100 := by
  have gen : ∀ kda wr cs vision : ℝ,
      matchOnlyScoreCalc (.fin kda) (.fin wr) (.fin cs) (.fin vision) =
        .fin (specMatchOnlyScore kda wr cs vision) := by
    intro kda wr cs vision
    unfold matchOnlyScoreCalc
    rw [ite_chain4_fin, ite_chain4_fin, ite_chain3_fin, ite_chain2_fin]
    simp only [JSNum.add_fin_fin, JSNum.maxJS_fin_fin, JSNum.minJS_fin_fin]
    unfold specMatchOnlyScore
    norm_num
  refine ⟨gen, ?_⟩
  rw [gen]
  norm_num [specMatchOnlyScore, min_def, max_def]

/-- C2 counterexample: in the match-only path the trend ignores avgKDA.
The analysis of one won match with kda 0 has trend ascending while its
avgKDA is 0, which is not greater than 2.0, contradicting the claimed
biconditional for the match-only path. -/
theorem trend_biconditional_counterexample :
    (analyzePotential "s" .null [winNoKdaMatch] "player").trend = Trend.ascending ∧
    matchOnlyAvgKDA [winNoKdaMatch] "player" = .fin 0 ∧
    ¬ ((0 : ℝ) > 2.0) := by
  have hperf : (calculatePerformanceMetrics [winNoKdaMatch] "player").performances =
      [mkPerformance 600 { baseParticipant with puuid := "player", win := true, deaths := 5 }] := by
    simp [calculatePerformanceMetrics, matchedPerformances, winNoKdaMatch, List.find?]
  have hvp : matchOnlyValidPerformances [winNoKdaMatch] "player" =
      [mkPerformance 600 { baseParticipant with puuid := "player", win := true, deaths := 5 }] := by
    simp [matchOnlyValidPerformances, hperf]
  have hwr : matchOnlyWinRate [winNoKdaMatch] "player" = .fin 100 := by
    norm_num [matchOnlyWinRate, hvp, jsSum, mkPerformance, baseParticipant, JSNum.div]
  have hkda : matchOnlyAvgKDA [winNoKdaMatch] "player" = .fin 0 := by
    norm_num [matchOnlyAvgKDA, hvp, jsSum, mkPerformance, baseParticipant, JSNum.div]
  refine ⟨?_, hkda, by norm_num⟩
  have hsel : (analyzePotential "s" .null [winNoKdaMatch] "player").trend =
      matchOnlyTrend (matchOnlyWinRate [winNoKdaMatch] "player") := by
    simp [analyzePotential, analyzeByMatchDataOnly, winNoKdaMatch]
  rw [hsel, hwr]
  simp only [matchOnlyTrend, JSNum.geb, JSNum.leb_fin_fin, decide_eq_true_eq]
  norm_num

/-- C2 amended: in the rank-based path determineTrend satisfies the claimed
biconditionals (ascending iff recentWinRate > 60 and avgKDA > 2.0,
descending iff recentWinRate < 45 and avgKDA < 1.5, stable otherwise, with
the boundary (60, 2.0) stable); in the match-only path the trend depends on
winRate alone: ascending iff winRate >= 60, descending iff winRate <= 40,
stable otherwise. -/
theorem trend_rules_amended (m : PerformanceMetrics) (w k : ℝ)
    (hw : m.recentWinRate = .fin w) (hk : m.avgKDA = .fin k) :
    ((determineTrend m = .ascending ↔ (60 < w ∧ 2.0 < k)) ∧
     (determineTrend m = .descending ↔ (w < 45 ∧ k < 1.5)) ∧
     (determineTrend m = .stable ↔ ¬ ((60 < w ∧ 2.0 < k) ∨ (w < 45 ∧ k < 1.5)))) ∧
    (∀ wr : ℝ,
      (matchOnlyTrend (.fin wr) = .ascending ↔ 60 ≤ wr) ∧
      (matchOnlyTrend (.fin wr) = .descending ↔ wr ≤ 40) ∧
      (matchOnlyTrend (.fin wr) = .stable ↔ (40 < wr ∧ wr < 60))) := by
  constructor
  · unfold determineTrend
    rw [hw, hk]
    simp only [JSNum.gtb, JSNum.ltb, JSNum.ltb_fin_fin, Bool.and_eq_true, decide_eq_true_eq]
    by_cases h1 : 60 < w ∧ 2.0 < k
    · rw [if_pos h1]
      refine ⟨by simp [h1], ?_, ?_⟩
      · simp only [show (Trend.ascending = Trend.descending) = False by simp, false_iff]
        rintro ⟨hww, -⟩
        linarith [h1.1]
      · simp only [show (Trend.ascending = Trend.stable) = False by simp, false_iff]
        simp [h1]
    · rw [if_neg h1]
      by_cases h2 : w < 45 ∧ k < 1.5
      · rw [if_pos h2]
        refine ⟨?_, by simp [h2], ?_⟩
        · simp only [show (Trend.descending = Trend.ascending) = False by simp, false_iff]
          exact h1
        · simp only [show (Trend.descending = Trend.stable) = False by simp, false_iff]
          simp [h2]
      · rw [if_neg h2]
        refine ⟨?_, ?_, ?_⟩
        · simp only [show (Trend.stable = Trend.ascending) = False by simp, false_iff]
          exact h1
        · simp only [show (Trend.stable = Trend.descending) = False by simp, false_iff]
          exact h2
        · simp [h1, h2]
  · intro wr
    unfold matchOnlyTrend
    simp only [JSNum.geb, JSNum.leb_fin_fin, decide_eq_true_eq]
    by_cases h1 : 60 ≤ wr
    · rw [if_pos h1]
      refine ⟨by simp [h1], ?_, ?_⟩
      · simp only [show (Trend.ascending = Trend.descending) = False by simp, false_iff]
        intro hle
        linarith
      · simp only [show (Trend.ascending = Trend.stable) = False by simp, false_iff]
        rintro ⟨-, hlt⟩
        linarith
    · rw [if_neg h1]
      by_cases h2 : wr ≤ 40
      · rw [if_pos h2]
        refine ⟨?_, by simp [h2], ?_⟩
        · simp only [show (Trend.descending = Trend.ascending) = False by simp, false_iff]
          exact h1
        · simp only [show (Trend.descending = Trend.stable) = False by simp, false_iff]
          rintro ⟨hgt, -⟩
          linarith
      · rw [if_neg h2]
        refine ⟨?_, ?_, ?_⟩
        · simp only [show (Trend.stable = Trend.ascending) = False by simp, false_iff]
          exact h1
        · simp only [show (Trend.stable = Trend.descending) = False by simp, false_iff]
          exact h2
        · simp only [true_iff]
          constructor <;> [exact lt_of_not_le h2; exact lt_of_not_le h1]

/-- Witness for C2: the boundary metrics (recentWinRate 60, avgKDA 2.0)
resolve to stable in the rank path, while the match-only trend at winRate 60
is already ascending. -/
theorem trend_rules_amended_witness :
    determineTrend { getDefaultMetrics with recentWinRate := .fin 60, avgKDA := .fin 2 } = .stable ∧
    matchOnlyTrend (.fin 60) = .ascending := by
  have h := trend_rules_amended
    { getDefaultMetrics with recentWinRate := .fin 60, avgKDA := .fin 2 } 60 2 rfl rfl
  exact ⟨h.1.2.2.mpr (by norm_num), (h.2 60).1.mpr (by norm_num)⟩

/-- jsSum over a list of finite JS numbers is the finite sum. -/
theorem jsSum_id_map_fin (g : List ℝ) : jsSum id (g.map JSNum.fin) = .fin g.sum := by
  have h1 : jsSum id (g.map JSNum.fin) = jsSum JSNum.fin g := by
    simp [jsSum, List.foldl_map]
  rw [h1, JSNum.jsSum_fin JSNum.fin id g (fun x _ => rfl)]
  simp

/-- calculateMetricConsistency on finite values equals the spec mapping of
the population standard deviation. -/
theorem calculateMetricConsistency_eq_spec (g : List ℝ) (hne : g ≠ []) :
    calculateMetricConsistency (g.map JSNum.fin) = .fin (specMetricConsistency g) := by
  have hlen : ((g.map JSNum.fin).length : ℝ) = (g.length : ℝ) := by simp
  have hlenne : (g.length : ℝ) ≠ 0 := by
    simpa using fun h => hne (List.length_eq_zero.mp h)
  set μ : ℝ := g.sum / g.length with hμ
  have hmean : (jsSum id (g.map JSNum.fin)).div (.fin (g.length : ℝ)) = JSNum.fin μ := by
    rw [jsSum_id_map_fin, JSNum.div_fin_fin _ _ hlenne]
  have hvar : jsSum (fun val => (val.sub (JSNum.fin μ)).mul (val.sub (JSNum.fin μ))) (g.map JSNum.fin)
      = .fin ((g.map (fun v => (v - μ) ^ 2)).sum) := by
    have h2 : jsSum (fun val => (val.sub (JSNum.fin μ)).mul (val.sub (JSNum.fin μ))) (g.map JSNum.fin)
        = jsSum (fun x => ((JSNum.fin x).sub (JSNum.fin μ)).mul ((JSNum.fin x).sub (JSNum.fin μ))) g := by
      simp [jsSum, List.foldl_map]
    rw [h2, JSNum.jsSum_fin _ (fun v => (v - μ) ^ 2) g (fun x _ => by simp [pow_two])]
  have hnn : 0 ≤ (g.map (fun v => (v - μ) ^ 2)).sum / (g.length : ℝ) := by
    apply div_nonneg _ (by positivity)
    apply List.sum_nonneg
    intro x hx
    rw [List.mem_map] at hx
    obtain ⟨v, -, rfl⟩ := hx
    positivity
  simp only [calculateMetricConsistency, hmean, hvar, hlen,
    JSNum.div_fin_fin _ _ hlenne, JSNum.sqrtJS_fin _ hnn,
    JSNum.mul_fin_fin, JSNum.sub_fin_fin, JSNum.minJS_fin_fin, JSNum.maxJS_fin_fin]
  unfold specMetricConsistency specPopStdDev
  rw [hμ]

/-- C3 amended: the consistency score is the fixed default 50 whenever
there are fewer than three matched records (hence also for two records, not
only one), and for three or more records it is the arithmetic mean of the
three values max(0, min(100, 100 - stddev*20)) over the population standard
deviations of per-match KDA, damage per minute and vision per minute. -/
theorem consistency_rule_amended (ps : List Performance) (ks ds vs : List ℝ)
    (hk : ps.map (fun p => p.kda.orZero) = ks.map JSNum.fin)
    (hd : ps.map (fun p => p.damagePerMinute.orZero) = ds.map JSNum.fin)
    (hv : ps.map (fun p => p.visionScorePerMinute.orZero) = vs.map JSNum.fin) :
    (ps.length < 3 → calculateAdvancedConsistency ps = .fin 50) ∧
    (3 ≤ ps.length → calculateAdvancedConsistency ps = .fin (specConsistency ks ds vs)) := by
  constructor
  · intro h
    unfold calculateAdvancedConsistency
    rw [if_pos h]
  · intro h
    have hkl : ks.length = ps.length := by
      have := congrArg List.length hk; simpa using this.symm
    have hdl : ds.length = ps.length := by
      have := congrArg List.length hd; simpa using this.symm
    have hvl : vs.length = ps.length := by
      have := congrArg List.length hv; simpa using this.symm
    have hkne : ks ≠ [] := by
      intro hnil; rw [hnil] at hkl; simp at hkl; omega
    have hdne : ds ≠ [] := by
      intro hnil; rw [hnil] at hdl; simp at hdl; omega
    have hvne : vs ≠ [] := by
      intro hnil; rw [hnil] at hvl; simp at hvl; omega
    unfold calculateAdvancedConsistency
    rw [if_neg (not_lt.mpr h)]
    simp only [hk, hd, hv, calculateMetricConsistency_eq_spec ks hkne,
      calculateMetricConsistency_eq_spec ds hdne, calculateMetricConsistency_eq_spec vs hvne,
      JSNum.add_fin_fin]
    rw [JSNum.div_fin_fin _ _ (by norm_num : (3:ℝ) ≠ 0)]
    unfold specConsistency
    norm_num

/-- C3 counterexample: for exactly two matched records the code returns the
fixed 50 while the claimed stddev formula gives (0 + 100 + 100)/3 = 200/3.
The two performances have KDA 0 and 10 and zero damage and vision per
minute, as witnessed by the list equalities. -/
theorem consistency_two_records_counterexample :
    calculateAdvancedConsistency [perfKdaZero, perfKdaTen] = .fin 50 ∧
    [perfKdaZero, perfKdaTen].map (fun p => p.kda.orZero) = [(0 : ℝ), 10].map JSNum.fin ∧
    [perfKdaZero, perfKdaTen].map (fun p => p.damagePerMinute.orZero) = [(0 : ℝ), 0].map JSNum.fin ∧
    [perfKdaZero, perfKdaTen].map (fun p => p.visionScorePerMinute.orZero) = [(0 : ℝ), 0].map JSNum.fin ∧
    specConsistency [0, 10] [0, 0] [0, 0] = 200 / 3 ∧
    (200 / 3 : ℝ) ≠ 50 := by
  have hsqrt25 : Real.sqrt 25 = 5 := by
    rw [show (25 : ℝ) = 5 ^ 2 by norm_num, Real.sqrt_sq (by norm_num)]
  refine ⟨by norm_num [calculateAdvancedConsistency], ?_, ?_, ?_, ?_, by norm_num⟩
  · norm_num [perfKdaZero, perfKdaTen, mkPerformance, baseParticipant]
  · norm_num [perfKdaZero, perfKdaTen, mkPerformance, baseParticipant, JSNum.div]
  · norm_num [perfKdaZero, perfKdaTen, mkPerformance, baseParticipant, JSNum.div]
  · norm_num [specConsistency, specMetricConsistency, specPopStdDev, hsqrt25,
      Real.sqrt_zero, min_def, max_def]

/-- Witness for C3 amended at a concrete three-record list with constant
values (all standard deviations zero, consistency 100). -/
theorem consistency_rule_amended_witness :
    calculateAdvancedConsistency [perfKdaOne, perfKdaOne, perfKdaOne] = .fin 100 := by
  have h := (consistency_rule_amended [perfKdaOne, perfKdaOne, perfKdaOne]
    [1, 1, 1] [0, 0, 0] [0, 0, 0]
    (by norm_num [perfKdaOne, mkPerformance, baseParticipant])
    (by norm_num [perfKdaOne, mkPerformance, baseParticipant, JSNum.div])
    (by norm_num [perfKdaOne, mkPerformance, baseParticipant, JSNum.div])).2 (by norm_num)
  rw [h]
  norm_num [specConsistency, specMetricConsistency, specPopStdDev, Real.sqrt_zero,
    min_def, max_def]

/-- The fallback-then-slice(0,4) pattern always yields between 1 and 4
entries. -/
theorem fallback_take4_len (l : List String) (fb : String) :
    1 ≤ ((if l.isEmpty then [fb] else l).take 4).length ∧
    ((if l.isEmpty then [fb] else l).take 4).length ≤ 4 := by
  constructor
  · by_cases h : l.isEmpty
    · simp [h]
    · have hne : l ≠ [] := fun hn => h (by simp [hn])
      have : 1 ≤ l.length := Nat.one_le_iff_ne_zero.mpr (by simpa [List.length_eq_zero] using hne)
      simp [h, List.length_take]
      omega
  · simp [List.length_take]

/-- The fallback pattern without a slice yields between 1 and 4 entries
when the built list has at most 4 entries. -/
theorem len_fallback (l : List String) (fb : String) (h : l.length ≤ 4) :
    1 ≤ (if l.isEmpty then [fb] else l).length ∧ (if l.isEmpty then [fb] else l).length ≤ 4 := by
  by_cases he : l.isEmpty
  · simp [he]
  · have hne : l ≠ [] := fun hn => he (by simp [hn])
    have h1 : 1 ≤ l.length := Nat.one_le_iff_ne_zero.mpr (by simpa [List.length_eq_zero] using hne)
    simp [he]
    exact ⟨h1, h⟩

theorem identifyAdvancedStrengths_len (m : PerformanceMetrics) (ps : PlayStyleAnalysis)
    (r : RankData) :
    1 ≤ (identifyAdvancedStrengths m ps r).length ∧ (identifyAdvancedStrengths m ps r).length ≤ 4 := by
  simp only [identifyAdvancedStrengths]
  exact fallback_take4_len _ _

theorem identifyAdvancedImprovements_len (m : PerformanceMetrics) (ps : PlayStyleAnalysis)
    (r : RankData) :
    1 ≤ (identifyAdvancedImprovements m ps r).length ∧
    (identifyAdvancedImprovements m ps r).length ≤ 4 := by
  simp only [identifyAdvancedImprovements]
  exact fallback_take4_len _ _

theorem identifyMatchBasedStrengths_len (m : List Performance) (ps : PlayStyleAnalysis) :
    1 ≤ (identifyMatchBasedStrengths m ps).length ∧
    (identifyMatchBasedStrengths m ps).length ≤ 4 := by
  simp only [identifyMatchBasedStrengths]
  refine len_fallback _ _ ?_
  split_ifs <;> simp

theorem identifyMatchBasedImprovements_len (m : List Performance) (ps : PlayStyleAnalysis) :
    1 ≤ (identifyMatchBasedImprovements m ps).length ∧
    (identifyMatchBasedImprovements m ps).length ≤ 4 := by
  simp only [identifyMatchBasedImprovements]
  refine len_fallback _ _ ?_
  split_ifs <;> simp

theorem analyzeByMatchDataOnly_lengths (summonerName : String) (recentMatches : List MatchData)
    (summonerPuuid : String) :
    (1 ≤ (analyzeByMatchDataOnly summonerName recentMatches summonerPuuid).strengths.length ∧
      (analyzeByMatchDataOnly summonerName recentMatches summonerPuuid).strengths.length ≤ 4) ∧
    (1 ≤ (analyzeByMatchDataOnly summonerName recentMatches summonerPuuid).improvements.length ∧
      (analyzeByMatchDataOnly summonerName recentMatches summonerPuuid).improvements.length ≤ 4) := by
  unfold analyzeByMatchDataOnly
  by_cases h : recentMatches.length = 0
  · rw [if_pos h]
    simp
  · rw [if_neg h]
    exact ⟨identifyMatchBasedStrengths_len (matchOnlyValidPerformances recentMatches summonerPuuid)
        (analyzePlayStyle recentMatches summonerPuuid),
      identifyMatchBasedImprovements_len (matchOnlyValidPerformances recentMatches summonerPuuid)
        (analyzePlayStyle recentMatches summonerPuuid)⟩

/-- C7: every analysis returned by analyzePotential carries between 1 and 4
strengths and between 1 and 4 improvements, in both the rank-based and the
match-only paths. -/
theorem strengths_improvements_lengths (summonerName : String) (rankData : RankDataInput)
    (recentMatches : List MatchData) (summonerPuuid : String) :
    (1 ≤ (analyzePotential summonerName rankData recentMatches summonerPuuid).strengths.length ∧
      (analyzePotential summonerName rankData recentMatches summonerPuuid).strengths.length ≤ 4) ∧
    (1 ≤ (analyzePotential summonerName rankData recentMatches summonerPuuid).improvements.length ∧
      (analyzePotential summonerName rankData recentMatches summonerPuuid).improvements.length ≤ 4) := by
  cases rankData with
  | null =>
      simpa [analyzePotential] using
        analyzeByMatchDataOnly_lengths summonerName recentMatches summonerPuuid
  | single r =>
      simp only [analyzePotential]
      exact ⟨identifyAdvancedStrengths_len _ _ _, identifyAdvancedImprovements_len _ _ _⟩
  | array rs =>
      simp only [analyzePotential]
      cases hfind : rs.find? (fun r => r.queueType = "RANKED_SOLO_5x5") with
      | none =>
          simp only [hfind]
          exact analyzeByMatchDataOnly_lengths summonerName recentMatches summonerPuuid
      | some sq =>
          simp only [hfind]
          exact ⟨identifyAdvancedStrengths_len _ _ _, identifyAdvancedImprovements_len _ _ _⟩

/-- The catch block never produces a 400. -/
theorem handleError_status_ne_400 (e : ThrownError) : (handleError e).status ≠ 400 := by
  unfold handleError
  split_ifs <;> simp

/-- A truthy optional string is a some of a non-empty string. -/
theorem truthyStr_eq_true_iff (o : Option String) :
    truthyStr o = true ↔ ∃ s, o = some s ∧ s.isEmpty = false := by
  cases o with
  | none => simp [truthyStr]
  | some s => simp [truthyStr, Bool.not_eq_true']

/-- C8 counterexample: a request whose body carries summonerInput as the
empty string (present, not lacking) is still answered with 400, because the
handler tests JS falsiness, not absence. -/
theorem post_400_counterexample :
    POST (.ok { summonerInput := some "" }) okWorld =
      ⟨400, .failure "Summoner input is required" none⟩ ∧
    ({ summonerInput := some "" } : RequestBody).summonerInput ≠ none := by
  exact ⟨rfl, by simp⟩

/-- C8 amended: the handler answers 400 exactly when the parsed body has a
falsy summonerInput (absent or empty string); a thrown body-parse error and
every propagated upstream error reach the catch block, which maps status
429 to the fixed rate-limit 429 response and everything else to 500 with
the error message; when every step succeeds the response is 200 with the
analysis. -/
theorem post_status_rules_amended :
    (∀ (b : Except ThrownError RequestBody) (w : RouteWorld),
      (POST b w).status = 400 ↔
        ∃ body, b = .ok body ∧ (body.summonerInput = none ∨ body.summonerInput = some "")) ∧
    (∀ (e : ThrownError) (w : RouteWorld), POST (.error e) w = handleError e) ∧
    (∀ (body : RequestBody) (w : RouteWorld) (e : ThrownError),
      truthyStr body.summonerInput = true → w.account = .error e →
      POST (.ok body) w = handleError e) ∧
    (∀ e : ThrownError, e.status = some 429 →
      handleError e = ⟨429, .failure "Rate limit exceeded. Please wait a moment before trying again."
          (some "Too many requests to Riot API. Please try again in a few seconds.")⟩) ∧
    (∀ e : ThrownError, e.status ≠ some 429 →
      handleError e = ⟨500, .failure e.message (some e.toStr)⟩) ∧
    (∀ (body : RequestBody) (w : RouteWorld) (s : String) (acct : AccountData)
        (sd : SummonerData) (ids : List String) (p : String),
      body.summonerInput = some s → s ≠ "" →
      w.account = .ok acct → acct.puuid = some p → p ≠ "" →
      w.summoner = .ok sd → w.matchIds = .ok ids →
      POST (.ok body) w = ⟨200, .success (analyzePotential s w.rank w.matchDetails p)⟩) := by
  refine ⟨?_, ?_, ?_, ?_, ?_, ?_⟩
  · intro b w
    cases b with
    | error e =>
        simp [POST, handleError_status_ne_400 e]
    | ok body =>
        cases hsi : body.summonerInput with
        | none =>
            constructor
            · intro h; exact ⟨body, rfl, Or.inl hsi⟩
            · intro h
              simp [POST, truthyStr, hsi]
        | some s =>
            by_cases hs : s = ""
            · subst hs
              constructor
              · intro h; exact ⟨body, rfl, Or.inr hsi⟩
              · intro h
                simp [POST, truthyStr, hsi, (show "".isEmpty = true from (String.isEmpty_iff "").mpr rfl)]
            · have hie : s.isEmpty = false := by
                rw [Bool.eq_false_iff]
                intro hemp
                exact hs ((String.isEmpty_iff s).mp hemp)
              have hne400 : (POST (.ok body) w).status ≠ 400 := by
                cases hacct : w.account with
                | error e =>
                    have he : POST (.ok body) w = handleError e := by
                      simp [POST, truthyStr, hsi, hie, hacct]
                    rw [he]; exact handleError_status_ne_400 e
                | ok acct =>
                    have hpucase : acct.puuid = none ∨ (∃ ps, acct.puuid = some ps ∧ ps.isEmpty = true) ∨
                        (∃ ps, acct.puuid = some ps ∧ ps.isEmpty = false) := by
                      cases hpu : acct.puuid with
                      | none => exact Or.inl rfl
                      | some ps =>
                          cases hpe : ps.isEmpty with
                          | true => exact Or.inr (Or.inl ⟨ps, rfl, hpe⟩)
                          | false => exact Or.inr (Or.inr ⟨ps, rfl, hpe⟩)
                    rcases hpucase with hpu | ⟨ps, hpu, hpe⟩ | ⟨ps, hpu, hpe⟩
                    · have he : POST (.ok body) w =
                          handleError ⟨"Error", "PUUID not found", none⟩ := by
                        simp [POST, truthyStr, hsi, hie, hacct, hpu]
                      rw [he]; exact handleError_status_ne_400 _
                    · have he : POST (.ok body) w =
                          handleError ⟨"Error", "PUUID not found", none⟩ := by
                        simp [POST, truthyStr, hsi, hie, hacct, hpu, hpe]
                      rw [he]; exact handleError_status_ne_400 _
                    · cases hsum : w.summoner with
                      | error e =>
                          have he : POST (.ok body) w = handleError e := by
                            simp [POST, truthyStr, hsi, hie, hacct, hpu, hpe, hsum]
                          rw [he]; exact handleError_status_ne_400 e
                      | ok sd =>
                          cases hids : w.matchIds with
                          | error e =>
                              have he : POST (.ok body) w = handleError e := by
                                simp [POST, truthyStr, hsi, hie, hacct, hpu, hpe, hsum, hids]
                              rw [he]; exact handleError_status_ne_400 e
                          | ok ids =>
                              have he : (POST (.ok body) w).status = 200 := by
                                simp [POST, truthyStr, hsi, hie, hacct, hpu, hpe, hsum, hids]
                              rw [he]; simp
              constructor
              · intro h400; exact absurd h400 hne400
              · rintro ⟨body', hb, hcase⟩
                cases hb
                rw [hsi] at hcase
                rcases hcase with h | h
                · exact absurd h (by simp)
                · exact absurd h (by simp [hs])
  · intro e w; rfl
  · intro body w e htr hacct
    obtain ⟨s, hsi, hie⟩ := (truthyStr_eq_true_iff body.summonerInput).mp htr
    simp [POST, truthyStr, hsi, hie, hacct]
  · intro e h
    unfold handleError
    rw [if_pos h]
  · intro e h
    unfold handleError
    rw [if_neg h]
  · intro body w s acct sd ids p hsi hs hacct hpu hp hsum hids
    have hie : s.isEmpty = false := by
      rw [Bool.eq_false_iff]
      intro hemp
      exact hs ((String.isEmpty_iff s).mp hemp)
    have hpe : p.isEmpty = false := by
      rw [Bool.eq_false_iff]
      intro hemp
      exact hp ((String.isEmpty_iff p).mp hemp)
    simp [POST, truthyStr, hsi, hie, hacct, hpu, hpe, hsum, hids]

/-- Witness for C8 at concrete inputs: the 400 rule applied to a present,
non-empty summoner input over a fully successful world, and the 429 and 500
translations applied to the concrete upstream errors. -/
theorem post_status_rules_amended_witness :
    ¬ (POST (.ok { summonerInput := some "hide on bush" }) okWorld).status = 400 ∧
    handleError rateLimitError = ⟨429,
      .failure "Rate limit exceeded. Please wait a moment before trying again."
        (some "Too many requests to Riot API. Please try again in a few seconds.")⟩ ∧
    handleError notFoundError = ⟨500, .failure "Resource not found"
      (some "RiotApiError: Resource not found")⟩ := by
  refine ⟨?_, ?_, ?_⟩
  · intro h400
    obtain ⟨body, hb, hcase⟩ := (post_status_rules_amended.1
      (.ok { summonerInput := some "hide on bush" }) okWorld).mp h400
    cases hb
    rcases hcase with h | h <;> simp at h
  · exact post_status_rules_amended.2.2.2.1 rateLimitError rfl
  · have h := post_status_rules_amended.2.2.2.2.1 notFoundError (by simp [notFoundError])
    simpa [notFoundError, ThrownError.toStr] using h

/-- jsSum of finite values is finite. -/
theorem jsSum_isFin {α : Type} (f : α → JSNum) (l : List α)
    (h : ∀ x ∈ l, (f x).IsFin) : (jsSum f l).IsFin := by
  suffices H : ∀ a : ℝ, (l.foldl (fun (acc : JSNum) x => acc.add (f x)) (.fin a)).IsFin by
    exact H 0
  induction l with
  | nil => intro a; exact ⟨a, rfl⟩
  | cons x xs ih =>
      intro a
      obtain ⟨r, hr⟩ := h x (by simp)
      rw [List.foldl_cons, hr, JSNum.add_fin_fin]
      exact ih (fun y hy => h y (by simp [hy])) (a + r)

/-- Division of a finite value by a nonzero finite constant is finite. -/
theorem IsFin.div_fin {x : JSNum} (hx : x.IsFin) (c : ℝ) (hc : c ≠ 0) :
    (x.div (.fin c)).IsFin := by
  obtain ⟨r, rfl⟩ := hx
  rw [JSNum.div_fin_fin _ _ hc]
  exact ⟨r / c, rfl⟩

/-- A list of finite JS numbers is the image of a list of reals. -/
theorem list_fin_decomp (l : List JSNum) (h : ∀ x ∈ l, x.IsFin) :
    ∃ g : List ℝ, l = g.map JSNum.fin := by
  induction l with
  | nil => exact ⟨[], rfl⟩
  | cons x xs ih =>
      obtain ⟨r, hr⟩ := h x (by simp)
      obtain ⟨g, hg⟩ := ih (fun y hy => h y (by simp [hy]))
      exact ⟨r :: g, by rw [hr, hg]; rfl⟩

/-- The spec weighted score always lies in [0, 100]. -/
theorem specWeightedScore_bounds (b kda cs vision wr cons : ℝ) :
    0 ≤ specWeightedScore b kda cs vision wr cons ∧
    specWeightedScore b kda cs vision wr cons ≤ 100 := by
  unfold specWeightedScore specRound
  set S : ℝ := b * 0.3 + min 100 (kda * 25) * 0.25 + min 100 (cs * 12) * 0.15 +
    min 100 (vision * 40) * 0.15 + wr * 0.1 + cons * 0.05
  have h0 : (0 : ℝ) ≤ max 0 (min 100 S) := le_max_left 0 _
  have h100 : max 0 (min 100 S) ≤ 100 := max_le (by norm_num) (min_le_left _ _)
  constructor
  · exact Int.floor_nonneg.mpr (by linarith)
  · have hlt : ⌊max 0 (min 100 S) + 1/2⌋ < (101 : ℤ) := Int.floor_lt.mpr (by push_cast; linarith)
    omega

/-- Each matched performance has a finite KDA, and finite per-minute values
whenever its match had a positive duration. -/
theorem matchedPerformances_fields (ms : List MatchData) (puuid : String)
    (hd : ∀ mt ∈ ms, 0 < mt.info.gameDuration) :
    ∀ q ∈ matchedPerformances ms puuid,
      q.kda.IsFin ∧ q.csPerMinute.IsFin ∧ q.visionScorePerMinute.IsFin ∧
      q.damagePerMinute.IsFin ∧ q.goldPerMinute.IsFin := by
  intro q hq
  unfold matchedPerformances at hq
  rw [List.mem_filterMap] at hq
  obtain ⟨o, ho, hoq⟩ := hq
  rw [List.mem_map] at ho
  obtain ⟨mt, hmt, rfl⟩ := ho
  simp only [id_eq] at hoq
  rw [Option.map_eq_some'] at hoq
  obtain ⟨pd, hfind, rfl⟩ := hoq
  have hdur : mt.info.gameDuration / 60 ≠ 0 := by
    have := hd mt hmt
    positivity
  unfold mkPerformance
  refine ⟨⟨_, rfl⟩, ?_, ?_, ?_, ?_⟩ <;>
    exact ⟨_, JSNum.div_fin_fin _ _ hdur⟩

/-- calculateMetricConsistency of an all-finite nonempty value list is
finite. -/
theorem calculateMetricConsistency_isFin (l : List JSNum) (hl : ∀ x ∈ l, x.IsFin)
    (hne : l ≠ []) : (calculateMetricConsistency l).IsFin := by
  obtain ⟨g, rfl⟩ := list_fin_decomp l hl
  have hgne : g ≠ [] := by
    intro h; subst h; simp at hne
  rw [calculateMetricConsistency_eq_spec g hgne]
  exact ⟨_, rfl⟩

/-- calculateAdvancedConsistency is finite when all per-minute inputs are
finite. -/
theorem calculateAdvancedConsistency_isFin (l : List Performance)
    (h : ∀ q ∈ l, q.kda.IsFin ∧ q.damagePerMinute.IsFin ∧ q.visionScorePerMinute.IsFin) :
    (calculateAdvancedConsistency l).IsFin := by
  unfold calculateAdvancedConsistency
  by_cases hlen : l.length < 3
  · rw [if_pos hlen]; exact ⟨50, rfl⟩
  · rw [if_neg hlen]
    have hne : l ≠ [] := by
      intro hnil; subst hnil; simp at hlen
    have hmapne : ∀ f : Performance → JSNum, l.map (fun p => (f p).orZero) ≠ [] := by
      intro f hnil
      exact hne (List.map_eq_nil.mp hnil)
    have horz : ∀ (f : Performance → JSNum), (∀ q ∈ l, (f q).IsFin) →
        ∀ x ∈ l.map (fun p => (f p).orZero), x.IsFin := by
      intro f hf x hx
      rw [List.mem_map] at hx
      obtain ⟨q, hq, rfl⟩ := hx
      obtain ⟨r, hr⟩ := hf q hq
      rw [hr]
      exact ⟨r, rfl⟩
    have h1 := calculateMetricConsistency_isFin _ (horz _ (fun q hq => (h q hq).1)) (hmapne _)
    have h2 := calculateMetricConsistency_isFin _ (horz _ (fun q hq => (h q hq).2.1)) (hmapne _)
    have h3 := calculateMetricConsistency_isFin _ (horz _ (fun q hq => (h q hq).2.2)) (hmapne _)
    obtain ⟨r1, hr1⟩ := h1
    obtain ⟨r2, hr2⟩ := h2
    obtain ⟨r3, hr3⟩ := h3
    simp only [hr1, hr2, hr3, JSNum.add_fin_fin]
    rw [JSNum.div_fin_fin _ _ (by norm_num : (3:ℝ) ≠ 0)]
    exact ⟨_, rfl⟩

/-- Adding integer-valued finite JS numbers adds their ranges. -/
theorem JSNum.IsIntIn.addJS {x y : JSNum} {lo1 hi1 lo2 hi2 : ℤ} (hx : x.IsIntIn lo1 hi1)
    (hy : y.IsIntIn lo2 hi2) : (x.add y).IsIntIn (lo1 + lo2) (hi1 + hi2) := by
  obtain ⟨k1, h1, h1', rfl⟩ := hx
  obtain ⟨k2, h2, h2', rfl⟩ := hy
  refine ⟨k1 + k2, by omega, by omega, ?_⟩
  rw [JSNum.add_fin_fin]
  norm_num

/-- Math.min(100, Math.max(0, x)) of an integer-valued finite JS number is
an integer in [0, 100]. -/
theorem JSNum.IsIntIn.clampJS {x : JSNum} {lo hi : ℤ} (hx : x.IsIntIn lo hi) :
    ((JSNum.fin 100).minJS ((JSNum.fin 0).maxJS x)).IsIntIn 0 100 := by
  obtain ⟨k, -, -, rfl⟩ := hx
  refine ⟨min 100 (max 0 k), by omega, by omega, ?_⟩
  rw [JSNum.maxJS_fin_fin, JSNum.minJS_fin_fin]
  congr 1
  push_cast
  norm_num

/-- The match-only score accumulation always produces an integer in
[0, 100], whatever the average values are (including NaN or infinite
averages, whose comparisons are all false). -/
theorem matchOnlyScoreCalc_isIntIn (a w c v : JSNum) :
    (matchOnlyScoreCalc a w c v).IsIntIn 0 100 := by
  have h50 : (JSNum.fin 50).IsIntIn 50 50 :=
    ⟨50, le_refl _, le_refl _, by norm_num [JSNum.fin.injEq]⟩
  have hb1 : JSNum.IsIntIn (if a.geb (.fin 3.0) then .fin 25 else if a.geb (.fin 2.0) then .fin 15
      else if a.geb (.fin 1.5) then .fin 10 else if a.geb (.fin 1.0) then .fin 5 else .fin 0) 0 25 := by
    split_ifs
    · exact ⟨25, by norm_num, by norm_num, by norm_num [JSNum.fin.injEq]⟩
    · exact ⟨15, by norm_num, by norm_num, by norm_num [JSNum.fin.injEq]⟩
    · exact ⟨10, by norm_num, by norm_num, by norm_num [JSNum.fin.injEq]⟩
    · exact ⟨5, by norm_num, by norm_num, by norm_num [JSNum.fin.injEq]⟩
    · exact ⟨0, by norm_num, by norm_num, by norm_num [JSNum.fin.injEq]⟩
  have hb2 : JSNum.IsIntIn (if w.geb (.fin 70) then .fin 25 else if w.geb (.fin 60) then .fin 20
      else if w.geb (.fin 55) then .fin 15 else if w.geb (.fin 50) then .fin 10 else .fin 0) 0 25 := by
    split_ifs
    · exact ⟨25, by norm_num, by norm_num, by norm_num [JSNum.fin.injEq]⟩
    · exact ⟨20, by norm_num, by norm_num, by norm_num [JSNum.fin.injEq]⟩
    · exact ⟨15, by norm_num, by norm_num, by norm_num [JSNum.fin.injEq]⟩
    · exact ⟨10, by norm_num, by norm_num, by norm_num [JSNum.fin.injEq]⟩
    · exact ⟨0, by norm_num, by norm_num, by norm_num [JSNum.fin.injEq]⟩
  have hb3 : JSNum.IsIntIn (if c.geb (.fin 8.0) then .fin 15 else if c.geb (.fin 6.5) then .fin 10
      else if c.geb (.fin 5.0) then .fin 5 else .fin 0) 0 15 := by
    split_ifs
    · exact ⟨15, by norm_num, by norm_num, by norm_num [JSNum.fin.injEq]⟩
    · exact ⟨10, by norm_num, by norm_num, by norm_num [JSNum.fin.injEq]⟩
    · exact ⟨5, by norm_num, by norm_num, by norm_num [JSNum.fin.injEq]⟩
    · exact ⟨0, by norm_num, by norm_num, by norm_num [JSNum.fin.injEq]⟩
  have hb4 : JSNum.IsIntIn (if v.geb (.fin 2.0) then .fin 10
      else if v.geb (.fin 1.5) then .fin 5 else .fin 0) 0 10 := by
    split_ifs
    · exact ⟨10, by norm_num, by norm_num, by norm_num [JSNum.fin.injEq]⟩
    · exact ⟨5, by norm_num, by norm_num, by norm_num [JSNum.fin.injEq]⟩
    · exact ⟨0, by norm_num, by norm_num, by norm_num [JSNum.fin.injEq]⟩
  exact ((((h50.addJS hb1).addJS hb2).addJS hb3).addJS hb4).clampJS

/-- The match-only analysis always stores an integer score in [0, 100]. -/
theorem analyzeByMatchDataOnly_score_isIntIn (summonerName : String) (ms : List MatchData)
    (p : String) : (analyzeByMatchDataOnly summonerName ms p).potentialScore.IsIntIn 0 100 := by
  unfold analyzeByMatchDataOnly
  by_cases h : ms.length = 0
  · rw [if_pos h]
    exact ⟨50, by norm_num, by norm_num, by norm_num [JSNum.fin.injEq]⟩
  · rw [if_neg h]
    exact matchOnlyScoreCalc_isIntIn _ _ _ _

/-- The five metric fields used by the weighted scorer, in the non-default
branch of the aggregator. -/
theorem calculatePerformanceMetrics_score_fields (ms : List MatchData) (p : String)
    (hne : ¬ (matchedPerformances ms p).length = 0) :
    (calculatePerformanceMetrics ms p).recentWinRate =
      ((JSNum.fin (((matchedPerformances ms p).filter (fun q => q.win)).length : ℝ)).div
        (.fin ((matchedPerformances ms p).length : ℝ))).mul (.fin 100) ∧
    (calculatePerformanceMetrics ms p).avgKDA =
      (jsSum (fun q => q.kda.orZero) (matchedPerformances ms p)).div
        (.fin ((matchedPerformances ms p).length : ℝ)) ∧
    (calculatePerformanceMetrics ms p).avgCSPerMinute =
      (jsSum (fun q => q.csPerMinute.orZero) (matchedPerformances ms p)).div
        (.fin ((matchedPerformances ms p).length : ℝ)) ∧
    (calculatePerformanceMetrics ms p).avgVisionScorePerMinute =
      (jsSum (fun q => q.visionScorePerMinute.orZero) (matchedPerformances ms p)).div
        (.fin ((matchedPerformances ms p).length : ℝ)) ∧
    (calculatePerformanceMetrics ms p).consistency =
      calculateAdvancedConsistency (matchedPerformances ms p) := by
  refine ⟨?_, ?_, ?_, ?_, ?_⟩ <;> simp [calculatePerformanceMetrics, hne]

/-- The weighted scorer on the metrics of matches with positive durations
produces an integer in [0, 100]. -/
theorem weighted_score_isIntIn (r : RankData) (ms : List MatchData) (puuid : String)
    (ps : PlayStyleAnalysis) (hd : ∀ mt ∈ ms, 0 < mt.info.gameDuration) :
    (calculateWeightedPotentialScore r (calculatePerformanceMetrics ms puuid) ps).IsIntIn 0 100 := by
  by_cases hlen : (matchedPerformances ms puuid).length = 0
  · have hdefault : calculatePerformanceMetrics ms puuid = getDefaultMetrics := by
      simp [calculatePerformanceMetrics, hlen]
    rw [hdefault, weightedScore_eq_spec r getDefaultMetrics ps 1 5 1 50 50
      (by norm_num [getDefaultMetrics]) rfl rfl rfl rfl]
    obtain ⟨h0, h1⟩ := specWeightedScore_bounds ((tierScores.lookup r.tier).getD 30) 1 5 1 50 50
    exact ⟨_, h0, h1, rfl⟩
  · obtain ⟨hwr, hkda, hcs, hvis, hcons⟩ := calculatePerformanceMetrics_score_fields ms puuid hlen
    have hfields := matchedPerformances_fields ms puuid hd
    have hlenR : ((matchedPerformances ms puuid).length : ℝ) ≠ 0 := by
      exact_mod_cast hlen
    have horzFin : ∀ (f : Performance → JSNum) (q : Performance), (f q).IsFin → (f q).orZero.IsFin := by
      intro f q hq
      obtain ⟨rr, hr⟩ := hq
      rw [hr]
      exact ⟨rr, rfl⟩
    have hkdaF : (calculatePerformanceMetrics ms puuid).avgKDA.IsFin := by
      rw [hkda]
      exact IsFin.div_fin (jsSum_isFin _ _ (fun q hq => horzFin _ q (hfields q hq).1)) _ hlenR
    have hcsF : (calculatePerformanceMetrics ms puuid).avgCSPerMinute.IsFin := by
      rw [hcs]
      exact IsFin.div_fin (jsSum_isFin _ _ (fun q hq => horzFin _ q (hfields q hq).2.1)) _ hlenR
    have hvisF : (calculatePerformanceMetrics ms puuid).avgVisionScorePerMinute.IsFin := by
      rw [hvis]
      exact IsFin.div_fin (jsSum_isFin _ _ (fun q hq => horzFin _ q (hfields q hq).2.2.1)) _ hlenR
    have hwrF : (calculatePerformanceMetrics ms puuid).recentWinRate.IsFin := by
      rw [hwr]
      rw [JSNum.div_fin_fin _ _ hlenR, JSNum.mul_fin_fin]
      exact ⟨_, rfl⟩
    have hconsF : (calculatePerformanceMetrics ms puuid).consistency.IsFin := by
      rw [hcons]
      exact calculateAdvancedConsistency_isFin _
        (fun q hq => ⟨(hfields q hq).1, (hfields q hq).2.2.2.1, (hfields q hq).2.2.1⟩)
    obtain ⟨kda, hkdaE⟩ := hkdaF
    obtain ⟨cs, hcsE⟩ := hcsF
    obtain ⟨vis, hvisE⟩ := hvisF
    obtain ⟨wr, hwrE⟩ := hwrF
    obtain ⟨cons, hconsE⟩ := hconsF
    rw [weightedScore_eq_spec r _ ps kda cs vis wr cons hkdaE hcsE hvisE hwrE hconsE]
    obtain ⟨h0, h1⟩ := specWeightedScore_bounds ((tierScores.lookup r.tier).getD 30) kda cs vis wr cons
    exact ⟨_, h0, h1, rfl⟩

/-- C1 amended: provided every match record has a positive gameDuration
(excluding the zero-duration records on which the score is NaN, see the
counterexample), the potentialScore of the analysis returned by
analyzePotential is a finite integer in [0, 100], with or without rank
data. -/
theorem potential_score_integer_range_amended (summonerName : String) (rankData : RankDataInput)
    (recentMatches : List MatchData) (summonerPuuid : String)
    (hd : ∀ mt ∈ recentMatches, 0 < mt.info.gameDuration) :
    (analyzePotential summonerName rankData recentMatches summonerPuuid).potentialScore.IsIntIn 0 100 := by
  cases rankData with
  | null =>
      simpa [analyzePotential] using
        analyzeByMatchDataOnly_score_isIntIn summonerName recentMatches summonerPuuid
  | single r =>
      simp only [analyzePotential]
      exact weighted_score_isIntIn r recentMatches summonerPuuid
        (analyzePlayStyle recentMatches summonerPuuid) hd
  | array rs =>
      simp only [analyzePotential]
      cases hfind : rs.find? (fun r => r.queueType = "RANKED_SOLO_5x5") with
      | none =>
          simp only [hfind]
          exact analyzeByMatchDataOnly_score_isIntIn summonerName recentMatches summonerPuuid
      | some sq =>
          simp only [hfind]
          exact weighted_score_isIntIn sq recentMatches summonerPuuid
            (analyzePlayStyle recentMatches summonerPuuid) hd

/-- Witness for C1 amended at the concrete empty input. -/
theorem potential_score_integer_range_amended_witness :
    (analyzePotential "s" .null [] "x").potentialScore.IsIntIn 0 100 :=
  potential_score_integer_range_amended "s" .null [] "x" (by simp)

/-- Adding NaN on the right gives NaN. -/
theorem JSNum.add_nan_right (x : JSNum) : x.add .nan = .nan := by cases x <;> rfl

/-- Dividing NaN by anything gives NaN. -/
theorem JSNum.div_nan_left (x : JSNum) : JSNum.nan.div x = .nan := by cases x <;> rfl

/-- C1 counterexample: with rank data present (GOLD) and three matches of
gameDuration 0 in which the player dealt 1 damage, damage per minute is
Infinity, its standard deviation is NaN (Infinity minus Infinity), the
consistency is NaN, and the returned potentialScore is NaN --- not an
integer in [0, 100]. -/
theorem potential_score_nan_counterexample :
    (analyzePotential "s" (.single goldRank)
      [zeroDurationMatch, zeroDurationMatch, zeroDurationMatch] "player").potentialScore = .nan := by
  have hperf : matchedPerformances [zeroDurationMatch, zeroDurationMatch, zeroDurationMatch] "player"
      = [mkPerformance 0 zeroDurationParticipant, mkPerformance 0 zeroDurationParticipant,
         mkPerformance 0 zeroDurationParticipant] := by
    simp [matchedPerformances, zeroDurationMatch, List.find?, zeroDurationParticipant, baseParticipant]
  have hdmg : (mkPerformance 0 zeroDurationParticipant).damagePerMinute = .posInf := by
    norm_num [mkPerformance, zeroDurationParticipant, baseParticipant, JSNum.div]
  have hdmgCons : calculateMetricConsistency [JSNum.posInf, JSNum.posInf, JSNum.posInf] = .nan := by
    norm_num [calculateMetricConsistency, jsSum, JSNum.add, JSNum.div, JSNum.sub, JSNum.mul,
      JSNum.sqrtJS, JSNum.minJS, JSNum.maxJS]
  have hlen3 : ¬ (matchedPerformances [zeroDurationMatch, zeroDurationMatch, zeroDurationMatch]
      "player").length = 0 := by
    rw [hperf]; norm_num
  obtain ⟨-, -, -, -, hconsM⟩ := calculatePerformanceMetrics_score_fields
    [zeroDurationMatch, zeroDurationMatch, zeroDurationMatch] "player" hlen3
  have hconsV : (calculatePerformanceMetrics
      [zeroDurationMatch, zeroDurationMatch, zeroDurationMatch] "player").consistency = .nan := by
    rw [hconsM, hperf]
    unfold calculateAdvancedConsistency
    rw [if_neg (by norm_num)]
    have hdms : [mkPerformance 0 zeroDurationParticipant, mkPerformance 0 zeroDurationParticipant,
        mkPerformance 0 zeroDurationParticipant].map (fun p => p.damagePerMinute.orZero) =
        [JSNum.posInf, JSNum.posInf, JSNum.posInf] := by
      simp [hdmg]
    simp only [hdms, hdmgCons, JSNum.add_nan_right, JSNum.add_nan, JSNum.div_nan_left]
  have hscore : calculateWeightedPotentialScore goldRank
      (calculatePerformanceMetrics [zeroDurationMatch, zeroDurationMatch, zeroDurationMatch] "player")
      (analyzePlayStyle [zeroDurationMatch, zeroDurationMatch, zeroDurationMatch] "player") = .nan := by
    unfold calculateWeightedPotentialScore
    simp only [hconsV, JSNum.mul_nan, JSNum.add_nan_right, JSNum.minJS_fin_nan,
      JSNum.maxJS_fin_nan, JSNum.roundJS_nan]
  simp only [analyzePotential]
  exact hscore

/-- Witness for C6 applying the threshold table at KDA 2, winRate 50,
CS/min 5, vision/min 1.5: 50 + 15 + 10 + 5 + 5 = 85. -/
theorem match_only_score_matches_spec_thresholds_witness :
    matchOnlyScoreCalc (.fin 2) (.fin 50) (.fin 5) (.fin 1.5) = .fin 85 := by
  rw [match_only_score_matches_spec_thresholds.1 2 50 5 1.5]
  norm_num [specMatchOnlyScore, min_def, max_def]
